import Mathlib

set_option maxHeartbeats 1000000
set_option maxRecDepth 8000

/-!
Shallow embedding of the simulation, input-handling and save-state logic of
the snek libretro core (src/snake_core.c).

Modelling conventions:
* C `int` fields are `Int` (all values arising in the modelled claims stay far
  inside 32-bit range; serialization lemmas carry explicit range hypotheses).
* `rand()` is a stream of draws `RNG := Nat → Nat`; the unbounded rejection
  loops (`random_free_cell`, the do/while in `spawn_obstacles`) take fuel and
  return `none` when it is exhausted.
* Rendering and audio write only to the framebuffer / audio sink and are not
  modelled.  Particle positions, velocities and colours are float-valued
  render-only data and are dropped, but the `active`/`lifetime` fields and the
  random draws consumed by the particle code are modelled, so the shared
  random stream stays aligned with the C code.
* The fixed C arrays `snake_x`/`snake_y` (size MAX_SNAKE_LENGTH = 1200) are
  `List Int` of length 1200; entries at indices `≥ snake_length` are the same
  stale values the C arrays hold.
* Byte sizes follow the LP64 ABI the core is built for: `sizeof(int) = 4`,
  `sizeof(enum) = 4`, `sizeof(unsigned long) = 8`.
-/

/-- Top-level game state (game_state_t). -/
inductive game_state_t where
  | STATE_TITLE
  | STATE_PLAY
  | STATE_PAUSE
  | STATE_GAMEOVER
deriving DecidableEq, Repr

/-- Movement directions (direction_t). -/
inductive direction_t where
  | DIR_UP
  | DIR_DOWN
  | DIR_LEFT
  | DIR_RIGHT
deriving DecidableEq, Repr, Fintype

/-- Power-up item types (item_type_t). -/
inductive item_type_t where
  | ITEM_NONE
  | ITEM_PHASE
  | ITEM_SPEED
deriving DecidableEq, Repr

open game_state_t direction_t item_type_t

/-- Modelled particle: the `active` flag and integer `lifetime` of particle_t.
Position, velocity and colour are floats used only for rendering and are not
modelled. -/
structure Particle where
  active : Bool
  lifetime : Int
deriving DecidableEq, Repr

/-- A stream of `rand()` results. -/
def RNG : Type := Nat → Nat

/-- Next `rand()` draw. -/
def RNG.head (g : RNG) : Nat := g 0

/-- Stream after consuming one draw. -/
def RNG.tail (g : RNG) : RNG := fun n => g (n + 1)

/-- The global mutable state of the core: the serialized fields (snake arrays,
length, direction, food, item, timers, score, high score, state, move counter,
frame counter) together with the non-serialized pending direction, obstacle
grid and particle pool. -/
structure GameState where
  snakeX : List Int
  snakeY : List Int
  snakeLength : Int
  snakeDir : direction_t
  pendingDir : direction_t
  foodX : Int
  foodY : Int
  itemType : item_type_t
  itemX : Int
  itemY : Int
  phaseTimer : Int
  speedTimer : Int
  particles : List Particle
  obstacle : Int → Int → Bool
  obstacleCount : Int
  score : Int
  highscore : Int
  state : game_state_t
  moveCounter : Int
  frameCount : Nat

/-- The first `snake_length` (x, y) segments of the snake arrays. -/
def snakeBody (s : GameState) : List (Int × Int) :=
  (s.snakeX.zip s.snakeY).take s.snakeLength.toNat

/-- The snake-occupancy scan used by random_free_cell and the self-collision
loop of update_snake: does any of the first snake_length segments sit on
(x, y)? -/
def inSnake (s : GameState) (x y : Int) : Bool :=
  (snakeBody s).any fun p => p.1 == x && p.2 == y

/-- check_obstacle_collision: in-bounds and obstacle cell set. -/
def check_obstacle_collision (s : GameState) (nx ny : Int) : Bool :=
  decide (0 ≤ nx) && decide (nx < 40) && decide (0 ≤ ny) && decide (ny < 30) &&
    s.obstacle nx ny

/-- random_free_cell: resample `rand() % GRID_W`, `rand() % GRID_H` until the
cell avoids the snake, the obstacle grid and the active item.  The C loop is
unbounded, so the model takes fuel and returns `none` when it runs out. -/
def random_free_cell : Nat → GameState → RNG → Option ((Int × Int) × RNG)
  | 0, _, _ => none
  | fuel + 1, s, g =>
    let x : Int := (g.head % 40 : Nat)
    let g1 := g.tail
    let y : Int := (g1.head % 30 : Nat)
    let g2 := g1.tail
    let collides := inSnake s x y || s.obstacle x y ||
      (s.itemType != ITEM_NONE && s.itemX == x && s.itemY == y)
    if collides then random_free_cell fuel s g2 else some ((x, y), g2)

/-- spawn_food: relocate the food to a random free cell. -/
def spawn_food (fuel : Nat) (s : GameState) (g : RNG) : Option (GameState × RNG) :=
  (random_free_cell fuel s g).map fun p => ({s with foodX := p.1.1, foodY := p.1.2}, p.2)

/-- The probability gate of spawn_item.  Models the float comparison
`(float)rand() / (float)RAND_MAX > POWERUP_PROBABILITY` with
POWERUP_PROBABILITY = 0.5 and RAND_MAX = 2147483647: the spawn attempt is
abandoned when the draw exceeds half of RAND_MAX.  (Float rounding exactly at
the threshold is not modelled; no claim depends on the cut point.) -/
def powerup_gate_rejects (r : Nat) : Bool := decide (2 * r > 2147483647)

/-- spawn_item: when no item is active, probabilistically spawn one power-up
of a random kind at a random free cell.  As in the source, item_type is
assigned before random_free_cell runs, so the position scan already sees the
new item type (and the stale item coordinates). -/
def spawn_item (fuel : Nat) (s : GameState) (g : RNG) : Option (GameState × RNG) :=
  if s.itemType != ITEM_NONE then some (s, g)
  else
    let r := g.head
    let g1 := g.tail
    if powerup_gate_rejects r then some (s, g1)
    else
      let r2 := g1.head
      let g2 := g1.tail
      let s1 := {s with itemType := if r2 % 2 != 0 then ITEM_PHASE else ITEM_SPEED}
      (random_free_cell fuel s1 g2).map fun p =>
        ({s1 with itemX := p.1.1, itemY := p.1.2}, p.2)

/-- Slot-filling loop of spawn_particles: active slots are skipped; each
inactive slot is activated, consuming the angle draw, the speed draw, the
lifetime draw (`30 + rand() % 30`) and the coin-flip draw (`rand() % 2`),
and the loop breaks early when the coin flip comes up even. -/
def spawn_particles_go : List Particle → RNG → List Particle × RNG
  | [], g => ([], g)
  | p :: ps, g =>
    if p.active then
      let r := spawn_particles_go ps g
      (p :: r.1, r.2)
    else
      let g1 := g.tail
      let g2 := g1.tail
      let life : Int := (30 + g2.head % 30 : Nat)
      let g3 := g2.tail
      let coin := g3.head
      let g4 := g3.tail
      if coin % 2 == 0 then (⟨true, life⟩ :: ps, g4)
      else
        let r := spawn_particles_go ps g4
        (⟨true, life⟩ :: r.1, r.2)

/-- spawn_particles: cx, cy and the colour feed only the float position and
colour fields, which are not modelled; the draws are. -/
def spawn_particles (cx cy : Int) (s : GameState) (g : RNG) : GameState × RNG :=
  let r := spawn_particles_go s.particles g
  ({s with particles := r.1}, r.2)

/-- Per-particle step of update_particles: decrement the lifetime and
deactivate the slot when it reaches zero (the position integration and the
colour fade are float render data, not modelled). -/
def update_particle (p : Particle) : Particle :=
  if p.active then
    let lt := p.lifetime - 1
    if lt ≤ 0 then ⟨false, lt⟩ else ⟨true, lt⟩
  else p

/-- update_particles over the whole pool. -/
def update_particles (s : GameState) : GameState :=
  {s with particles := s.particles.map update_particle}

/-- The border ring written by spawn_obstacles: all cells with x ∈ {0, 39} or
y ∈ {0, 29} inside the 40×30 grid. -/
def border_cell (x y : Int) : Bool :=
  (decide (0 ≤ x) && decide (x < 40) && (y == 0 || y == 29)) ||
  (decide (0 ≤ y) && decide (y < 30) && (x == 0 || x == 39))

/-- Mark one obstacle cell in the grid. -/
def set_obstacle (f : Int → Int → Bool) (x y : Int) : Int → Int → Bool :=
  fun a b => if a == x && b == y then true else f a b

/-- The do/while resampling loop inside spawn_obstacles.  It rejects the
snake head cell (only index 0 is checked in the source), the food cell, the
active item cell and existing obstacles. -/
def obstacle_try : Nat → GameState → RNG → Option ((Int × Int) × RNG)
  | 0, _, _ => none
  | fuel + 1, s, g =>
    let x : Int := (g.head % 40 : Nat)
    let g1 := g.tail
    let y : Int := (g1.head % 30 : Nat)
    let g2 := g1.tail
    let bad := (s.snakeX.headD 0 == x && s.snakeY.headD 0 == y) ||
      (s.foodX == x && s.foodY == y) ||
      (s.itemType != ITEM_NONE && s.itemX == x && s.itemY == y) ||
      s.obstacle x y
    if bad then obstacle_try fuel s g2 else some ((x, y), g2)

/-- Interior-obstacle placement loop of spawn_obstacles
(num_obstacles = GRID_W * GRID_H / 100 = 12 iterations). -/
def spawn_obstacles_go : Nat → Nat → GameState → RNG → Option (GameState × RNG)
  | 0, _, s, g => some (s, g)
  | n + 1, fuel, s, g =>
    (obstacle_try fuel s g).bind fun p =>
      spawn_obstacles_go n fuel
        {s with obstacle := set_obstacle s.obstacle p.1.1 p.1.2,
                obstacleCount := s.obstacleCount + 1} p.2

/-- spawn_obstacles: set the whole border ring as obstacles, set
obstacle_count to 2*(GRID_W+GRID_H)-4 = 136, then place 12 random interior
obstacles. -/
def spawn_obstacles (fuel : Nat) (s : GameState) (g : RNG) : Option (GameState × RNG) :=
  let s1 := {s with obstacle := fun x y => border_cell x y || s.obstacle x y,
                    obstacleCount := 136}
  spawn_obstacles_go 12 fuel s1 g

/-- game_reset: centre a 3-segment snake facing right, clear score, timers,
item, particles and obstacles, then spawn food and obstacles.  Note the
source order: food is spawned while the obstacle grid is still empty. -/
def game_reset (fuel : Nat) (s : GameState) (g : RNG) : Option (GameState × RNG) :=
  let s1 : GameState :=
    {s with snakeLength := 3,
            snakeX := 20 :: 19 :: 18 :: s.snakeX.drop 3,
            snakeY := 15 :: 15 :: 15 :: s.snakeY.drop 3,
            snakeDir := DIR_RIGHT, pendingDir := DIR_RIGHT,
            score := 0, phaseTimer := 0, speedTimer := 0,
            itemType := ITEM_NONE,
            moveCounter := 8, frameCount := 0,
            particles := s.particles.map fun p => {p with active := false},
            obstacle := fun _ _ => false, obstacleCount := 0}
  (spawn_food fuel s1 g).bind fun q => spawn_obstacles fuel q.1 q.2

/-- One step in a direction (the switch at the top of update_snake). -/
def dirStep (d : direction_t) (x y : Int) : Int × Int :=
  match d with
  | DIR_UP => (x, y - 1)
  | DIR_DOWN => (x, y + 1)
  | DIR_LEFT => (x - 1, y)
  | DIR_RIGHT => (x + 1, y)

/-- Wraparound of the x coordinate under phasing (the two sequential ifs of
the source). -/
def wrapX (x : Int) : Int := if x < 0 then 39 else if 40 ≤ x then 0 else x

/-- Wraparound of the y coordinate under phasing. -/
def wrapY (y : Int) : Int := if y < 0 then 29 else if 30 ≤ y then 0 else y

/-- Candidate head cell of the next tick: one step from the current head in
the direction that the tick will adopt (the buffered pending direction). -/
def tickCandidate (s : GameState) : Int × Int :=
  dirStep s.pendingDir (s.snakeX.headD 0) (s.snakeY.headD 0)

/-- Candidate head cell after the wall-handling stage: wrapped when the phase
timer is positive, unchanged otherwise. -/
def wrapped_candidate (s : GameState) : Int × Int :=
  if 0 < s.phaseTimer then (wrapX (tickCandidate s).1, wrapY (tickCandidate s).2)
  else tickCandidate s

/-- Body-shift of the commit stage: the C loop copies entry i-1 into entry i
for i = L-1 … 1 and then writes the new head into entry 0; entries at
indices ≥ L keep their stale values. -/
def shiftArr (l : List Int) (L : Nat) (v : Int) : List Int :=
  v :: (l.take (L - 1) ++ l.drop (max L 1))

/-- Growth write of the food branch: with the incremented length L+1 the
source duplicates entry L-1 into entry L. -/
def dupTail (l : List Int) (L : Nat) : List Int :=
  l.set L (l.getD (L - 1) 0)

/-- Item-contact stage at the end of update_snake: on contact start the
matching timer (PHASE_DURATION = SPEED_DURATION = 300 frames), spawn a
particle burst, and clear the item. -/
def item_contact (nx ny : Int) (s : GameState) (g : RNG) : GameState × RNG :=
  if s.itemType != ITEM_NONE && nx == s.itemX && ny == s.itemY then
    let s1 := if s.itemType == ITEM_PHASE then {s with phaseTimer := 300}
      else if s.itemType == ITEM_SPEED then {s with speedTimer := 300} else s
    let r := spawn_particles s1.itemX s1.itemY s1 g
    ({r.1 with itemType := ITEM_NONE}, r.2)
  else (s, g)

/-- Growth step of the food branch: while below MAX_SNAKE_LENGTH = 1200,
increment the length and duplicate the tail entry (with the incremented
length L+1 the source copies entry L-1 into entry L). -/
def grow_if_possible (s : GameState) (L : Nat) : GameState :=
  if s.snakeLength < 1200 then
    {s with snakeLength := s.snakeLength + 1,
            snakeX := dupTail s.snakeX L,
            snakeY := dupTail s.snakeY L}
  else s

/-- High-score bump of the food branch: `if (score > highscore) highscore =
score`. -/
def bump_highscore (s : GameState) : GameState :=
  if s.highscore < s.score then {s with highscore := s.score} else s

/-- Score update of the food branch: `score += 10` followed by the high-score
bump. -/
def add_food_score (s : GameState) : GameState :=
  bump_highscore {s with score := s.score + 10}

/-- Commit stage of update_snake: shift the body, insert the new head, and
handle food contact (grow if below MAX_SNAKE_LENGTH = 1200, add 10 to the
score, raise the high score, burst particles, respawn food, try to spawn an
item) and then item contact. -/
def snake_commit (fuel : Nat) (s : GameState) (nx ny : Int) (g : RNG) :
    Option (GameState × RNG) :=
  let L := s.snakeLength.toNat
  let s1 := {s with snakeX := shiftArr s.snakeX L nx, snakeY := shiftArr s.snakeY L ny}
  if nx == s1.foodX && ny == s1.foodY then
    let s2 := grow_if_possible s1 L
    let s4 := add_food_score s2
    let pr := spawn_particles s4.foodX s4.foodY s4 g
    (spawn_food fuel pr.1 pr.2).bind fun q =>
      (spawn_item fuel q.1 q.2).bind fun r =>
        some (item_contact nx ny r.1 r.2)
  else some (item_contact nx ny s1 g)

/-- Collision stage of update_snake applied to the (possibly wrapped)
candidate: self-collision (only while the phase timer is ≤ 0) and obstacle
collision each end the game immediately; otherwise the move is committed. -/
def snake_checks_commit (fuel : Nat) (s : GameState) (nx ny : Int) (g : RNG) :
    Option (GameState × RNG) :=
  if decide (s.phaseTimer ≤ 0) && inSnake s nx ny then
    some ({s with state := STATE_GAMEOVER}, g)
  else if check_obstacle_collision s nx ny then
    some ({s with state := STATE_GAMEOVER}, g)
  else snake_commit fuel s nx ny g

/-- update_snake: adopt the pending direction, compute the candidate head,
handle walls (wraparound while phasing, otherwise death outside the grid),
then run the collision checks and the commit stage. -/
def update_snake (fuel : Nat) (s0 : GameState) (g : RNG) : Option (GameState × RNG) :=
  let s := {s0 with snakeDir := s0.pendingDir}
  let c := dirStep s0.pendingDir (s0.snakeX.headD 0) (s0.snakeY.headD 0)
  if 0 < s.phaseTimer then
    snake_checks_commit fuel s (wrapX c.1) (wrapY c.2) g
  else if c.1 < 0 || 40 ≤ c.1 || c.2 < 0 || 30 ≤ c.2 then
    some ({s with state := STATE_GAMEOVER}, g)
  else snake_checks_commit fuel s c.1 c.2 g

/-- Per-frame button levels (six logical controls). -/
structure InputFrame where
  up : Bool
  down : Bool
  left : Bool
  right : Bool
  start : Bool
  sel : Bool
deriving DecidableEq, Repr

/-- Previous-frame levels of the edge-detected controls (the static
prev_start / prev_select of handle_input). -/
structure PrevButtons where
  start : Bool
  sel : Bool
deriving DecidableEq, Repr

/-- The direction chain at the bottom of handle_input: a requested direction
is taken only if it is neither the reverse of the current direction nor the
reverse of the buffered direction. -/
def pending_after (u d l r : Bool) (dir pend : direction_t) : direction_t :=
  if u && dir != DIR_DOWN && pend != DIR_DOWN then DIR_UP
  else if d && dir != DIR_UP && pend != DIR_UP then DIR_DOWN
  else if l && dir != DIR_RIGHT && pend != DIR_RIGHT then DIR_LEFT
  else if r && dir != DIR_LEFT && pend != DIR_LEFT then DIR_RIGHT
  else pend

/-- Direction handling of handle_input (only active in the play state; only
the buffered pending direction is updated). -/
def apply_dir_input (inp : InputFrame) (s : GameState) : GameState :=
  if s.state == STATE_PLAY then
    {s with pendingDir := pending_after inp.up inp.down inp.left inp.right s.snakeDir s.pendingDir}
  else s

/-- handle_input: edge-triggered start transitions (Title→Play with reset,
Play↔Pause, GameOver→Play with reset), edge-triggered select clearing the
high score in the title state, then direction handling.  As in the source the
select check reads the state after the start handling. -/
def handle_input (fuel : Nat) (inp : InputFrame) (prev : PrevButtons) (s : GameState)
    (g : RNG) : Option (GameState × PrevButtons × RNG) :=
  let startStep : Option (GameState × RNG) :=
    if inp.start && !prev.start then
      match s.state with
      | STATE_TITLE => game_reset fuel {s with state := STATE_PLAY} g
      | STATE_PLAY => some ({s with state := STATE_PAUSE}, g)
      | STATE_PAUSE => some ({s with state := STATE_PLAY}, g)
      | STATE_GAMEOVER => game_reset fuel {s with state := STATE_PLAY} g
    else some (s, g)
  startStep.bind fun q =>
    let s2 := if inp.sel && !prev.sel && q.1.state == STATE_TITLE
      then {q.1 with highscore := 0} else q.1
    let s3 := apply_dir_input inp s2
    some (s3, ⟨inp.start, inp.sel⟩, q.2)

/-- Simulation part of retro_run: handle input; while playing decrement both
timers, derive the move interval from the speed timer (BASE_MOVE_INTERVAL = 8,
halved to 4 under speed), count the move counter down and tick the snake when
it reaches zero, then update particles; always increment the frame counter.
(The draw and the video/audio callbacks have no effect on this state.) -/
def retro_run_frame (fuel : Nat) (inp : InputFrame) (prev : PrevButtons) (s : GameState)
    (g : RNG) : Option (GameState × PrevButtons × RNG) :=
  (handle_input fuel inp prev s g).bind fun q =>
    let s1 := q.1
    let prev1 := q.2.1
    let g1 := q.2.2
    let cont : Option (GameState × RNG) :=
      if s1.state == STATE_PLAY then
        let s2 := if 0 < s1.phaseTimer then {s1 with phaseTimer := s1.phaseTimer - 1} else s1
        let s3 := if 0 < s2.speedTimer then {s2 with speedTimer := s2.speedTimer - 1} else s2
        let interval : Int := if 0 < s3.speedTimer then 4 else 8
        let s4 := {s3 with moveCounter := s3.moveCounter - 1}
        let afterMove : Option (GameState × RNG) :=
          if s4.moveCounter ≤ 0 then
            (update_snake fuel s4 g1).map fun q2 => ({q2.1 with moveCounter := interval}, q2.2)
          else some (s4, g1)
        afterMove.map fun q2 => (update_particles q2.1, q2.2)
      else some (s1, g1)
    cont.map fun q2 => ({q2.1 with frameCount := q2.1.frameCount + 1}, prev1, q2.2)

/-- Reverse of a direction. -/
def opposite : direction_t → direction_t
  | DIR_UP => DIR_DOWN
  | DIR_DOWN => DIR_UP
  | DIR_LEFT => DIR_RIGHT
  | DIR_RIGHT => DIR_LEFT

/-- Fatal-collision condition of a tick, on the state at tick entry: the
candidate is outside the grid while phasing is inactive, or on a body cell
while phasing is inactive, or (after wall handling) on an obstacle cell
regardless of phasing. -/
def fatal_tick (s : GameState) : Prop :=
  (s.phaseTimer ≤ 0 ∧
    ¬ (0 ≤ (tickCandidate s).1 ∧ (tickCandidate s).1 < 40 ∧
       0 ≤ (tickCandidate s).2 ∧ (tickCandidate s).2 < 30)) ∨
  (s.phaseTimer ≤ 0 ∧ inSnake s (tickCandidate s).1 (tickCandidate s).2 = true) ∨
  check_obstacle_collision s (wrapped_candidate s).1 (wrapped_candidate s).2 = true

instance (s : GameState) : Decidable (fatal_tick s) := by
  unfold fatal_tick; infer_instance

/-- Operations of the core that the trace-level claims quantify over: one
frame of retro_run with given button levels, or retro_reset. -/
inductive CoreOp where
  | frame (inp : InputFrame)
  | reset
deriving Repr

/-- One core operation on the full machine state (game state, previous
button levels, random stream). -/
def run_op (fuel : Nat) (st : GameState × PrevButtons × RNG) (op : CoreOp) :
    Option (GameState × PrevButtons × RNG) :=
  match op with
  | CoreOp.frame inp => retro_run_frame fuel inp st.2.1 st.1 st.2.2
  | CoreOp.reset => (game_reset fuel st.1 st.2.2).map fun q => (q.1, st.2.1, q.2)

/-- Run a list of core operations. -/
def run_ops (fuel : Nat) : List CoreOp → (GameState × PrevButtons × RNG) →
    Option (GameState × PrevButtons × RNG)
  | [], st => some st
  | op :: ops, st => (run_op fuel st op).bind (run_ops fuel ops)

/-- Run a list of core operations, collecting every intermediate state. -/
def run_trace (fuel : Nat) : (GameState × PrevButtons × RNG) → List CoreOp →
    Option (List (GameState × PrevButtons × RNG))
  | _, [] => some []
  | st, op :: ops =>
    (run_op fuel st op).bind fun st1 =>
      (run_trace fuel st1 ops).map fun tr => st1 :: tr

/-- Little-endian byte encoding of a 32-bit C int (two's complement), as
memcpy of a 4-byte int produces on a little-endian target. -/
def encInt32 (v : Int) : List Nat :=
  let u := (v % 4294967296).toNat
  [u % 256, u / 256 % 256, u / 65536 % 256, u / 16777216 % 256]

/-- Little-endian decode of a 32-bit C int from the front of a byte list. -/
def decInt32 : List Nat → Int × List Nat
  | b0 :: b1 :: b2 :: b3 :: rest =>
    let u : Nat := b0 + 256 * b1 + 65536 * b2 + 16777216 * b3
    (if u < 2147483648 then (u : Int) else (u : Int) - 4294967296, rest)
  | l => (0, l)

/-- Little-endian byte encoding of an 8-byte unsigned long. -/
def encNat64 (n : Nat) : List Nat :=
  let u := n % 18446744073709551616
  [u % 256, u / 256 % 256, u / 65536 % 256, u / 16777216 % 256,
   u / 4294967296 % 256, u / 1099511627776 % 256,
   u / 281474976710656 % 256, u / 72057594037927936 % 256]

/-- Little-endian decode of an 8-byte unsigned long. -/
def decNat64 : List Nat → Nat × List Nat
  | b0 :: b1 :: b2 :: b3 :: b4 :: b5 :: b6 :: b7 :: rest =>
    (b0 + 256 * b1 + 65536 * b2 + 16777216 * b3 + 4294967296 * b4 +
      1099511627776 * b5 + 281474976710656 * b6 + 72057594037927936 * b7, rest)
  | l => (0, l)

/-- Encoding of a whole int array, element by element. -/
def encI32List : List Int → List Nat
  | [] => []
  | v :: vs => encInt32 v ++ encI32List vs

/-- Decode of n consecutive 32-bit ints. -/
def decI32List : Nat → List Nat → List Int × List Nat
  | 0, l => ([], l)
  | n + 1, l =>
    let p := decInt32 l
    let q := decI32List n p.2
    (p.1 :: q.1, q.2)

/-- Numeric value of direction_t (C enum). -/
def dir_code : direction_t → Int
  | DIR_UP => 0
  | DIR_DOWN => 1
  | DIR_LEFT => 2
  | DIR_RIGHT => 3

/-- Numeric value of item_type_t (C enum). -/
def item_code : item_type_t → Int
  | ITEM_NONE => 0
  | ITEM_PHASE => 1
  | ITEM_SPEED => 2

/-- Numeric value of game_state_t (C enum). -/
def state_code : game_state_t → Int
  | STATE_TITLE => 0
  | STATE_PLAY => 1
  | STATE_PAUSE => 2
  | STATE_GAMEOVER => 3

/-- Direction read back from its numeric value. -/
def dir_decode (v : Int) : direction_t :=
  if v = 0 then DIR_UP else if v = 1 then DIR_DOWN else if v = 2 then DIR_LEFT
  else DIR_RIGHT

/-- Item type read back from its numeric value. -/
def item_decode (v : Int) : item_type_t :=
  if v = 0 then ITEM_NONE else if v = 1 then ITEM_PHASE else ITEM_SPEED

/-- Game state read back from its numeric value. -/
def state_decode (v : Int) : game_state_t :=
  if v = 0 then STATE_TITLE else if v = 1 then STATE_PLAY
  else if v = 2 then STATE_PAUSE else STATE_GAMEOVER

/-- The exact byte stream retro_serialize memcpy's into the caller's buffer,
field for field in source order: snake_x[1200], snake_y[1200], snake_length,
snake_dir, food_x, food_y, item_type, item_x, item_y, phase_timer,
speed_timer, score, highscore, state, move_counter, frame_count. -/
def serializeBytes (s : GameState) : List Nat :=
  encI32List s.snakeX ++ encI32List s.snakeY ++
  encInt32 s.snakeLength ++ encInt32 (dir_code s.snakeDir) ++
  encInt32 s.foodX ++ encInt32 s.foodY ++
  encInt32 (item_code s.itemType) ++ encInt32 s.itemX ++ encInt32 s.itemY ++
  encInt32 s.phaseTimer ++ encInt32 s.speedTimer ++
  encInt32 s.score ++ encInt32 s.highscore ++
  encInt32 (state_code s.state) ++ encInt32 s.moveCounter ++
  encNat64 s.frameCount

/-- retro_serialize_size:
sizeof(int) * (2 * MAX_SNAKE_LENGTH + 5) + sizeof(game_state_t)
+ sizeof(unsigned long) on LP64. -/
def retro_serialize_size : Nat := 4 * (2 * 1200 + 5) + 4 + 8

/-- retro_serialize on a caller buffer of the given size: fail without
touching the buffer when the size is below retro_serialize_size, otherwise
overwrite the front of the buffer with the full byte stream. -/
def retro_serialize (s : GameState) (size : Nat) (buf : List Nat) : Bool × List Nat :=
  if size < retro_serialize_size then (false, buf)
  else (true, serializeBytes s ++ buf.drop (serializeBytes s).length)

/-- Field-for-field inverse of the packing: read every serialized field from
the byte stream into the target state.  The pending direction, particles and
the obstacle grid are not serialized and keep their old values. -/
def deserializeInto (data : List Nat) (s : GameState) : GameState :=
  let p1 := decI32List 1200 data
  let p2 := decI32List 1200 p1.2
  let p3 := decInt32 p2.2
  let p4 := decInt32 p3.2
  let p5 := decInt32 p4.2
  let p6 := decInt32 p5.2
  let p7 := decInt32 p6.2
  let p8 := decInt32 p7.2
  let p9 := decInt32 p8.2
  let p10 := decInt32 p9.2
  let p11 := decInt32 p10.2
  let p12 := decInt32 p11.2
  let p13 := decInt32 p12.2
  let p14 := decInt32 p13.2
  let p15 := decInt32 p14.2
  let p16 := decNat64 p15.2
  {s with snakeX := p1.1, snakeY := p2.1, snakeLength := p3.1,
          snakeDir := dir_decode p4.1,
          foodX := p5.1, foodY := p6.1,
          itemType := item_decode p7.1, itemX := p8.1, itemY := p9.1,
          phaseTimer := p10.1, speedTimer := p11.1,
          score := p12.1, highscore := p13.1,
          state := state_decode p14.1, moveCounter := p15.1,
          frameCount := p16.1}

/-- retro_unserialize on a caller buffer of the given size: fail without any
mutation when the size is below retro_serialize_size, otherwise overwrite the
state with the unpacked fields. -/
def retro_unserialize (data : List Nat) (size : Nat) (s : GameState) : Bool × GameState :=
  if size < retro_serialize_size then (false, s)
  else (true, deserializeInto data s)

/-- Int values representable in a 32-bit C int. -/
def i32 (v : Int) : Prop := -2147483648 ≤ v ∧ v < 2147483648

instance (v : Int) : Decidable (i32 v) := by unfold i32; infer_instance

/-- Well-formedness needed by the serialization claims: the snake arrays hold
MAX_SNAKE_LENGTH = 1200 ints, every int field fits a 32-bit int and the frame
counter fits an unsigned long. -/
structure SerialWF (s : GameState) : Prop where
  hx : s.snakeX.length = 1200
  hy : s.snakeY.length = 1200
  hxV : ∀ v ∈ s.snakeX, i32 v
  hyV : ∀ v ∈ s.snakeY, i32 v
  hlen : i32 s.snakeLength
  hfx : i32 s.foodX
  hfy : i32 s.foodY
  hix : i32 s.itemX
  hiy : i32 s.itemY
  hpt : i32 s.phaseTimer
  hst : i32 s.speedTimer
  hsc : i32 s.score
  hhs : i32 s.highscore
  hmc : i32 s.moveCounter
  hfc : s.frameCount < 18446744073709551616

/-- A concrete baseline state used by the witnesses and counterexamples. -/
def baseState : GameState where
  snakeX := List.replicate 1200 0
  snakeY := List.replicate 1200 0
  snakeLength := 3
  snakeDir := DIR_RIGHT
  pendingDir := DIR_RIGHT
  foodX := 10
  foodY := 10
  itemType := ITEM_NONE
  itemX := 0
  itemY := 0
  phaseTimer := 0
  speedTimer := 0
  particles := List.replicate 128 ⟨false, 0⟩
  obstacle := fun _ _ => false
  obstacleCount := 0
  score := 0
  highscore := 0
  state := STATE_PLAY
  moveCounter := 8
  frameCount := 0

/-- The identity draw stream 0, 1, 2, …, used by the witnesses. -/
def idRng : RNG := fun n => n

/-- Witness state for C5: head at (5, 5) moving right into the obstacle cell
(6, 5). -/
def c5State : GameState :=
  {baseState with snakeX := 5 :: 4 :: 3 :: List.replicate 1197 0,
                  snakeY := 5 :: 5 :: 5 :: List.replicate 1197 0,
                  obstacle := fun a b => a == 6 && b == 5}

/-- Witness state for C7: head at (5, 5) moving right onto the food at
(6, 5). -/
def c7State : GameState :=
  {baseState with snakeX := 5 :: 4 :: 3 :: List.replicate 1197 0,
                  snakeY := 5 :: 5 :: 5 :: List.replicate 1197 0,
                  foodX := 6, foodY := 5}

/-- Constant draw stream for the C7 witness. -/
def c7Rng : RNG := fun _ => 9

/-- The C7 witness tick. -/
def c7Run : Option (GameState × RNG) := update_snake 1 c7State c7Rng

/-- Resulting state of the C7 witness tick. -/
def c7Result : GameState := ((c7Run).getD (c7State, c7Rng)).1

/-- All-released input frame. -/
def neutralInput : InputFrame := ⟨false, false, false, false, false, false⟩

/-- All-released previous button levels. -/
def prev0 : PrevButtons := ⟨false, false⟩

/-- Counterexample state for C2: playing, both timers running, move counter
at 3 so that no tick occurs on the next frame. -/
def c2State : GameState := {baseState with phaseTimer := 5, speedTimer := 2, moveCounter := 3}

theorem encInt32_length (v : Int) : (encInt32 v).length = 4 := rfl

theorem encNat64_length (n : Nat) : (encNat64 n).length = 8 := rfl

theorem encI32List_length (l : List Int) : (encI32List l).length = 4 * l.length := by
  induction l with
  | nil => rfl
  | cons v vs ih =>
    simp only [encI32List, List.length_append, encInt32_length, ih, List.length_cons]
    ring

theorem decInt32_encInt32 (v : Int) (h : i32 v) (rest : List Nat) :
    decInt32 (encInt32 v ++ rest) = (v, rest) := by
  obtain ⟨h1, h2⟩ := h
  have hnn : (0 : Int) ≤ v % 4294967296 := Int.emod_nonneg v (by norm_num)
  have hlt : v % 4294967296 < 4294967296 := Int.emod_lt_of_pos v (by norm_num)
  have hu : ((v % 4294967296).toNat : Int) = v % 4294967296 := Int.toNat_of_nonneg hnn
  simp only [encInt32, decInt32, List.cons_append, List.nil_append]
  set u := (v % 4294967296).toNat with hudef
  have hu32 : u < 4294967296 := by omega
  have hrec : u % 256 + 256 * (u / 256 % 256) + 65536 * (u / 65536 % 256) +
      16777216 * (u / 16777216 % 256) = u := by omega
  rw [hrec]
  have hmod : v % 4294967296 = if 0 ≤ v then v else v + 4294967296 := by
    split_ifs <;> omega
  refine Prod.ext ?_ rfl
  by_cases hc : u < 2147483648
  · rw [if_pos hc]
    split_ifs at hmod <;> omega
  · rw [if_neg hc]
    split_ifs at hmod <;> omega

theorem decNat64_encNat64 (n : Nat) (h : n < 18446744073709551616) (rest : List Nat) :
    decNat64 (encNat64 n ++ rest) = (n, rest) := by
  simp only [encNat64, decNat64, List.cons_append, List.nil_append]
  refine Prod.ext ?_ rfl
  have hn : n % 18446744073709551616 = n := Nat.mod_eq_of_lt h
  rw [hn]
  omega

theorem decNat64_encNat64_nil (n : Nat) (h : n < 18446744073709551616) :
    decNat64 (encNat64 n) = (n, []) := by
  have := decNat64_encNat64 n h []
  simpa using this

theorem decI32List_encI32List (l : List Int) (h : ∀ v ∈ l, i32 v) (rest : List Nat) :
    decI32List l.length (encI32List l ++ rest) = (l, rest) := by
  induction l with
  | nil => rfl
  | cons v vs ih =>
    simp only [encI32List, List.length_cons, decI32List, List.append_assoc]
    rw [decInt32_encInt32 v (h v (by simp)) _]
    simp [ih fun w hw => h w (by simp [hw])]

theorem decI32List_encI32List' (n : Nat) (l : List Int) (hn : l.length = n)
    (h : ∀ v ∈ l, i32 v) (rest : List Nat) :
    decI32List n (encI32List l ++ rest) = (l, rest) := by
  subst hn
  exact decI32List_encI32List l h rest

theorem dir_code_i32 (d : direction_t) : i32 (dir_code d) := by cases d <;> decide

theorem item_code_i32 (it : item_type_t) : i32 (item_code it) := by cases it <;> decide

theorem state_code_i32 (st : game_state_t) : i32 (state_code st) := by cases st <;> decide

theorem dir_decode_code (d : direction_t) : dir_decode (dir_code d) = d := by
  cases d <;> decide

theorem item_decode_code (it : item_type_t) : item_decode (item_code it) = it := by
  cases it <;> decide

theorem state_decode_code (st : game_state_t) : state_decode (state_code st) = st := by
  cases st <;> decide

theorem serializeBytes_length (s : GameState) (h : SerialWF s) :
    (serializeBytes s).length = 9660 := by
  simp [serializeBytes, encI32List_length, h.hx, h.hy, encInt32_length, encNat64_length]

theorem deserialize_serialize (s t : GameState) (h : SerialWF s) :
    deserializeInto (serializeBytes s) t =
      {t with snakeX := s.snakeX, snakeY := s.snakeY, snakeLength := s.snakeLength,
              snakeDir := s.snakeDir, foodX := s.foodX, foodY := s.foodY,
              itemType := s.itemType, itemX := s.itemX, itemY := s.itemY,
              phaseTimer := s.phaseTimer, speedTimer := s.speedTimer,
              score := s.score, highscore := s.highscore, state := s.state,
              moveCounter := s.moveCounter, frameCount := s.frameCount} := by
  simp only [deserializeInto, serializeBytes, List.append_assoc,
    decI32List_encI32List' 1200 s.snakeX h.hx h.hxV,
    decI32List_encI32List' 1200 s.snakeY h.hy h.hyV,
    decInt32_encInt32 s.snakeLength h.hlen,
    decInt32_encInt32 (dir_code s.snakeDir) (dir_code_i32 s.snakeDir),
    decInt32_encInt32 s.foodX h.hfx,
    decInt32_encInt32 s.foodY h.hfy,
    decInt32_encInt32 (item_code s.itemType) (item_code_i32 s.itemType),
    decInt32_encInt32 s.itemX h.hix,
    decInt32_encInt32 s.itemY h.hiy,
    decInt32_encInt32 s.phaseTimer h.hpt,
    decInt32_encInt32 s.speedTimer h.hst,
    decInt32_encInt32 s.score h.hsc,
    decInt32_encInt32 s.highscore h.hhs,
    decInt32_encInt32 (state_code s.state) (state_code_i32 s.state),
    decInt32_encInt32 s.moveCounter h.hmc,
    decNat64_encNat64_nil s.frameCount h.hfc,
    dir_decode_code, item_decode_code, state_decode_code]

theorem baseState_wf : SerialWF baseState := by
  refine ⟨rfl, rfl, ?_, ?_, by decide, by decide, by decide, by decide, by decide,
    by decide, by decide, by decide, by decide, by decide, by decide⟩ <;>
  · intro v hv
    rw [List.eq_of_mem_replicate hv]
    decide

/-- C1: the claim states that retro_serialize writes the whole blob within
the first retro_serialize_size() bytes of the buffer.  The code refutes it:
for every well-formed state the byte stream retro_serialize produces is 9660
bytes long, while retro_serialize_size() reports only 9632 bytes — the size
formula budgets 5 scalar ints besides the two arrays, the state enum and the
frame counter, but retro_serialize actually stores 12 int-sized scalar
fields, so a caller buffer of exactly the reported size is overrun by 28
bytes. -/
theorem c1_serialize_overruns_reported_size (s : GameState) (h : SerialWF s) :
    (serializeBytes s).length = 9660 ∧ retro_serialize_size = 9632 ∧
      retro_serialize_size < (serializeBytes s).length := by
  refine ⟨serializeBytes_length s h, rfl, ?_⟩
  rw [serializeBytes_length s h]
  norm_num [retro_serialize_size]

/-- Witness for C1 at the concrete baseline state. -/
theorem c1_witness :
    (serializeBytes baseState).length = 9660 ∧ retro_serialize_size = 9632 ∧
      retro_serialize_size < (serializeBytes baseState).length :=
  c1_serialize_overruns_reported_size baseState baseState_wf

/-- C3: serializing a state and deserializing the produced blob into any
fresh state reproduces the snake coordinate arrays, length, direction, food
coordinate, item variant and coordinate, both timers, score, high score,
top-level game state and frame counter. -/
theorem c3_serialize_roundtrip (s t : GameState) (h : SerialWF s) :
    (retro_unserialize (serializeBytes s) (serializeBytes s).length t).1 = true ∧
    ((retro_unserialize (serializeBytes s) (serializeBytes s).length t).2.snakeX = s.snakeX ∧
     (retro_unserialize (serializeBytes s) (serializeBytes s).length t).2.snakeY = s.snakeY ∧
     (retro_unserialize (serializeBytes s) (serializeBytes s).length t).2.snakeLength = s.snakeLength ∧
     (retro_unserialize (serializeBytes s) (serializeBytes s).length t).2.snakeDir = s.snakeDir ∧
     (retro_unserialize (serializeBytes s) (serializeBytes s).length t).2.foodX = s.foodX ∧
     (retro_unserialize (serializeBytes s) (serializeBytes s).length t).2.foodY = s.foodY ∧
     (retro_unserialize (serializeBytes s) (serializeBytes s).length t).2.itemType = s.itemType ∧
     (retro_unserialize (serializeBytes s) (serializeBytes s).length t).2.itemX = s.itemX ∧
     (retro_unserialize (serializeBytes s) (serializeBytes s).length t).2.itemY = s.itemY ∧
     (retro_unserialize (serializeBytes s) (serializeBytes s).length t).2.phaseTimer = s.phaseTimer ∧
     (retro_unserialize (serializeBytes s) (serializeBytes s).length t).2.speedTimer = s.speedTimer ∧
     (retro_unserialize (serializeBytes s) (serializeBytes s).length t).2.score = s.score ∧
     (retro_unserialize (serializeBytes s) (serializeBytes s).length t).2.highscore = s.highscore ∧
     (retro_unserialize (serializeBytes s) (serializeBytes s).length t).2.state = s.state ∧
     (retro_unserialize (serializeBytes s) (serializeBytes s).length t).2.frameCount = s.frameCount) := by
  have hsize : ¬ (serializeBytes s).length < retro_serialize_size := by
    rw [serializeBytes_length s h]
    norm_num [retro_serialize_size]
  simp [retro_unserialize, if_neg hsize, deserialize_serialize s t h]

/-- Witness for C3: round trip of the concrete baseline state into a fresh
state with different field values. -/
theorem c3_witness :
    (retro_unserialize (serializeBytes baseState) (serializeBytes baseState).length
      {baseState with score := 77, state := STATE_TITLE}).2.score = baseState.score ∧
    (retro_unserialize (serializeBytes baseState) (serializeBytes baseState).length
      {baseState with score := 77, state := STATE_TITLE}).2.state = baseState.state := by
  have h := c3_serialize_roundtrip baseState
    {baseState with score := 77, state := STATE_TITLE} baseState_wf
  exact ⟨h.2.2.2.2.2.2.2.2.2.2.2.2.1, h.2.2.2.2.2.2.2.2.2.2.2.2.2.2.1⟩

/-- C4: on any buffer smaller than retro_serialize_size both operations
report failure and mutate nothing: serialize returns the buffer unwritten,
unserialize returns the state unchanged. -/
theorem c4_small_buffer_fails_cleanly (s t : GameState) (size : Nat)
    (buf data : List Nat) (h : size < retro_serialize_size) :
    retro_serialize s size buf = (false, buf) ∧
      retro_unserialize data size t = (false, t) := by
  simp [retro_serialize, retro_unserialize, if_pos h]

/-- Witness for C4 with a zero-size buffer. -/
theorem c4_witness :
    retro_serialize baseState 0 [] = (false, []) ∧
      retro_unserialize [] 0 baseState = (false, baseState) :=
  c4_small_buffer_fails_cleanly baseState baseState 0 [] [] (by decide)

theorem random_free_cell_free (fuel : Nat) (s : GameState) (g : RNG) (x y : Int)
    (g' : RNG) (h : random_free_cell fuel s g = some ((x, y), g')) :
    inSnake s x y = false ∧ s.obstacle x y = false ∧
      (s.itemType ≠ ITEM_NONE → ¬ (s.itemX = x ∧ s.itemY = y)) := by
  induction fuel generalizing g with
  | zero => simp [random_free_cell] at h
  | succ n ih =>
    rw [random_free_cell] at h
    by_cases hc : (inSnake s ((g.head % 40 : Nat) : Int) ((g.tail.head % 30 : Nat) : Int) ||
        s.obstacle ((g.head % 40 : Nat) : Int) ((g.tail.head % 30 : Nat) : Int) ||
        (s.itemType != ITEM_NONE && s.itemX == ((g.head % 40 : Nat) : Int) &&
          s.itemY == ((g.tail.head % 30 : Nat) : Int))) = true
    · rw [if_pos hc] at h
      exact ih _ h
    · rw [if_neg hc] at h
      simp only [Option.some.injEq, Prod.mk.injEq] at h
      obtain ⟨⟨hx, hy⟩, -⟩ := h
      simp only [Bool.or_eq_true, Bool.and_eq_true, bne_iff_ne, beq_iff_eq,
        not_or, Bool.not_eq_true, not_and] at hc
      obtain ⟨⟨h1, h2⟩, h3⟩ := hc
      subst hx hy
      exact ⟨h1, h2, fun hne hxy => h3 ⟨hne, hxy.1⟩ hxy.2⟩

/-- C6: whenever random_free_cell returns (it is the free-cell picker used by
spawn_food and by spawn_item), the coordinate it produces lies on no snake
segment, on no obstacle cell, and not on the active item's cell — for every
state it is invoked in and every draw stream. -/
theorem c6_random_free_cell_returns_free_cell (fuel : Nat) (s : GameState) (g : RNG)
    (x y : Int) (g' : RNG) (h : random_free_cell fuel s g = some ((x, y), g')) :
    inSnake s x y = false ∧ s.obstacle x y = false ∧
      (s.itemType ≠ ITEM_NONE → ¬ (s.itemX = x ∧ s.itemY = y)) :=
  random_free_cell_free fuel s g x y g' h

/-- Witness for C6: at the baseline state the first draws give cell (0, 1),
which is free. -/
theorem c6_witness :
    inSnake baseState 0 1 = false ∧ baseState.obstacle 0 1 = false ∧
      (baseState.itemType ≠ ITEM_NONE →
        ¬ (baseState.itemX = 0 ∧ baseState.itemY = 1)) :=
  c6_random_free_cell_returns_free_cell 1 baseState idRng 0 1 idRng.tail.tail rfl

theorem snake_checks_commit_gameover (fuel : Nat) (s : GameState) (nx ny : Int) (g : RNG)
    (h : (decide (s.phaseTimer ≤ 0) && inSnake s nx ny) = true ∨
      check_obstacle_collision s nx ny = true) :
    snake_checks_commit fuel s nx ny g = some ({s with state := STATE_GAMEOVER}, g) := by
  unfold snake_checks_commit
  rcases h with h | h
  · rw [if_pos h]
  · by_cases h2 : (decide (s.phaseTimer ≤ 0) && inSnake s nx ny) = true
    · rw [if_pos h2]
    · rw [if_neg h2, if_pos h]

theorem update_snake_fatal_eq (fuel : Nat) (s : GameState) (g : RNG)
    (h : fatal_tick s) :
    update_snake fuel s g =
      some ({s with snakeDir := s.pendingDir, state := STATE_GAMEOVER}, g) := by
  by_cases hph : 0 < s.phaseTimer
  · have hobs : check_obstacle_collision s (wrapX (tickCandidate s).1)
        (wrapY (tickCandidate s).2) = true := by
      rcases h with ⟨h1, _⟩ | ⟨h1, _⟩ | hobs
      · omega
      · omega
      · simpa [wrapped_candidate, if_pos hph] using hobs
    simp only [update_snake]
    rw [if_pos hph]
    exact snake_checks_commit_gameover fuel _ _ _ g (Or.inr hobs)
  · simp only [update_snake]
    rw [if_neg hph]
    by_cases hout : (tickCandidate s).1 < 0 ∨ 40 ≤ (tickCandidate s).1 ∨
        (tickCandidate s).2 < 0 ∨ 30 ≤ (tickCandidate s).2
    · have hbool : (decide ((tickCandidate s).1 < 0) || decide (40 ≤ (tickCandidate s).1) ||
          decide ((tickCandidate s).2 < 0) || decide (30 ≤ (tickCandidate s).2)) = true := by
        simp only [Bool.or_eq_true, decide_eq_true_eq]
        omega
      rw [if_pos (by simpa [tickCandidate] using hbool)]
    · have hbool : (decide ((tickCandidate s).1 < 0) || decide (40 ≤ (tickCandidate s).1) ||
          decide ((tickCandidate s).2 < 0) || decide (30 ≤ (tickCandidate s).2)) = false := by
        simp only [Bool.or_eq_false_iff, decide_eq_false_iff_not]
        omega
      rw [if_neg (by
        simp only [tickCandidate] at hbool
        simp only [hbool]
        exact Bool.false_ne_true)]
      apply snake_checks_commit_gameover
      rcases h with ⟨_, houtc⟩ | ⟨_, hself⟩ | hobs
      · exact absurd (by omega : (0 ≤ (tickCandidate s).1 ∧ (tickCandidate s).1 < 40 ∧
          0 ≤ (tickCandidate s).2 ∧ (tickCandidate s).2 < 30)) houtc
      · left
        have hple : s.phaseTimer ≤ 0 := by omega
        simp only [tickCandidate] at hself
        simp [hple, hself, inSnake, snakeBody]
        simpa [inSnake, snakeBody] using hself
      · right
        have : wrapped_candidate s = tickCandidate s := by
          simp [wrapped_candidate, if_neg hph]
        rw [this] at hobs
        simpa [tickCandidate, check_obstacle_collision] using hobs

/-- C5: a tick whose candidate head triggers a fatal collision — outside the
grid while the phase timer is not positive, on a body cell while the phase
timer is not positive, or on an occupied obstacle cell regardless of phase —
only sets the state to GameOver: the snake arrays, length, score, high score,
food, item, both timers, particles and obstacles are untouched, and only the
current direction has taken the pending direction. -/
theorem c5_fatal_tick_is_gameover_only (fuel : Nat) (s : GameState) (g : RNG)
    (h : fatal_tick s) :
    update_snake fuel s g =
      some ({s with snakeDir := s.pendingDir, state := STATE_GAMEOVER}, g) :=
  update_snake_fatal_eq fuel s g h

/-- Witness for C5: head at (5, 5) moving right into the obstacle at (6, 5)
yields GameOver with no other mutation. -/
theorem c5_witness :
    fatal_tick c5State ∧
    update_snake 1 c5State idRng =
      some ({c5State with snakeDir := c5State.pendingDir, state := STATE_GAMEOVER}, idRng) :=
  ⟨by decide, c5_fatal_tick_is_gameover_only 1 c5State idRng (by decide)⟩

theorem opposite_ne (d : direction_t) : d ≠ opposite d := by cases d <;> decide

theorem pending_after_ok (u d l r : Bool) (dir pend : direction_t)
    (h : pend ≠ opposite dir) : pending_after u d l r dir pend ≠ opposite dir := by
  revert h
  cases u <;> cases d <;> cases l <;> cases r <;> cases dir <;> cases pend <;> decide

theorem spawn_food_shape (fuel : Nat) (s : GameState) (g : RNG) (t : GameState) (g' : RNG)
    (h : spawn_food fuel s g = some (t, g')) :
    ∃ p : (Int × Int) × RNG, random_free_cell fuel s g = some p ∧
      t = {s with foodX := p.1.1, foodY := p.1.2} ∧ g' = p.2 := by
  unfold spawn_food at h
  rcases Option.map_eq_some'.mp h with ⟨p, hp, he⟩
  refine ⟨p, hp, ?_, ?_⟩
  · exact congrArg Prod.fst he.symm
  · exact congrArg Prod.snd he.symm

theorem spawn_item_fields (fuel : Nat) (s : GameState) (g : RNG) (t : GameState) (g' : RNG)
    (h : spawn_item fuel s g = some (t, g')) :
    t.snakeX = s.snakeX ∧ t.snakeY = s.snakeY ∧ t.snakeLength = s.snakeLength ∧
    t.snakeDir = s.snakeDir ∧ t.pendingDir = s.pendingDir ∧
    t.foodX = s.foodX ∧ t.foodY = s.foodY ∧
    t.phaseTimer = s.phaseTimer ∧ t.speedTimer = s.speedTimer ∧
    t.particles = s.particles ∧ t.obstacle = s.obstacle ∧
    t.obstacleCount = s.obstacleCount ∧ t.score = s.score ∧
    t.highscore = s.highscore ∧ t.state = s.state ∧
    t.moveCounter = s.moveCounter ∧ t.frameCount = s.frameCount := by
  unfold spawn_item at h
  by_cases h1 : (s.itemType != ITEM_NONE) = true
  · rw [if_pos h1] at h
    simp only [Option.some.injEq, Prod.mk.injEq] at h
    rw [← h.1]
    exact ⟨rfl, rfl, rfl, rfl, rfl, rfl, rfl, rfl, rfl, rfl, rfl, rfl, rfl, rfl, rfl, rfl, rfl⟩
  · rw [if_neg h1] at h
    by_cases h2 : powerup_gate_rejects g.head = true
    · rw [if_pos h2] at h
      simp only [Option.some.injEq, Prod.mk.injEq] at h
      rw [← h.1]
      exact ⟨rfl, rfl, rfl, rfl, rfl, rfl, rfl, rfl, rfl, rfl, rfl, rfl, rfl, rfl, rfl, rfl, rfl⟩
    · rw [if_neg h2] at h
      rcases Option.map_eq_some'.mp h with ⟨p, hp, he⟩
      simp only [Prod.mk.injEq] at he
      obtain ⟨ht, -⟩ := he
      subst ht
      exact ⟨rfl, rfl, rfl, rfl, rfl, rfl, rfl, rfl, rfl, rfl, rfl, rfl, rfl, rfl, rfl, rfl, rfl⟩

theorem item_contact_fields (nx ny : Int) (s : GameState) (g : RNG) :
    (item_contact nx ny s g).1.snakeX = s.snakeX ∧
    (item_contact nx ny s g).1.snakeY = s.snakeY ∧
    (item_contact nx ny s g).1.snakeLength = s.snakeLength ∧
    (item_contact nx ny s g).1.snakeDir = s.snakeDir ∧
    (item_contact nx ny s g).1.pendingDir = s.pendingDir ∧
    (item_contact nx ny s g).1.foodX = s.foodX ∧
    (item_contact nx ny s g).1.foodY = s.foodY ∧
    (item_contact nx ny s g).1.obstacle = s.obstacle ∧
    (item_contact nx ny s g).1.obstacleCount = s.obstacleCount ∧
    (item_contact nx ny s g).1.score = s.score ∧
    (item_contact nx ny s g).1.highscore = s.highscore ∧
    (item_contact nx ny s g).1.state = s.state ∧
    (item_contact nx ny s g).1.moveCounter = s.moveCounter ∧
    (item_contact nx ny s g).1.frameCount = s.frameCount := by
  unfold item_contact
  split_ifs <;>
    exact ⟨rfl, rfl, rfl, rfl, rfl, rfl, rfl, rfl, rfl, rfl, rfl, rfl, rfl, rfl⟩

theorem set_obstacle_mono (f : Int → Int → Bool) (a b x y : Int)
    (h : f x y = true) : set_obstacle f a b x y = true := by
  unfold set_obstacle
  split <;> simp [h]

theorem spawn_obstacles_go_fields (n : Nat) (fuel : Nat) (s : GameState) (g : RNG)
    (t : GameState) (g' : RNG) (h : spawn_obstacles_go n fuel s g = some (t, g')) :
    t.snakeX = s.snakeX ∧ t.snakeY = s.snakeY ∧ t.snakeLength = s.snakeLength ∧
    t.snakeDir = s.snakeDir ∧ t.pendingDir = s.pendingDir ∧
    t.foodX = s.foodX ∧ t.foodY = s.foodY ∧ t.itemType = s.itemType ∧
    t.itemX = s.itemX ∧ t.itemY = s.itemY ∧ t.phaseTimer = s.phaseTimer ∧
    t.speedTimer = s.speedTimer ∧ t.particles = s.particles ∧
    t.score = s.score ∧ t.highscore = s.highscore ∧ t.state = s.state ∧
    t.moveCounter = s.moveCounter ∧ t.frameCount = s.frameCount ∧
    (∀ x y, s.obstacle x y = true → t.obstacle x y = true) := by
  induction n generalizing s g with
  | zero =>
    rw [spawn_obstacles_go] at h
    simp only [Option.some.injEq, Prod.mk.injEq] at h
    rw [← h.1]
    exact ⟨rfl, rfl, rfl, rfl, rfl, rfl, rfl, rfl, rfl, rfl, rfl, rfl, rfl, rfl, rfl, rfl,
      rfl, rfl, fun x y hxy => hxy⟩
  | succ n ih =>
    rw [spawn_obstacles_go] at h
    rcases Option.bind_eq_some.mp h with ⟨p, hp, h2⟩
    obtain ⟨e1, e2, e3, e4, e5, e6, e7, e8, e9, e10, e11, e12, e13, e14, e15, e16,
      e17, e18, e19⟩ := ih _ _ h2
    exact ⟨e1, e2, e3, e4, e5, e6, e7, e8, e9, e10, e11, e12, e13, e14, e15, e16,
      e17, e18, fun x y hxy => e19 x y (set_obstacle_mono s.obstacle p.1.1 p.1.2 x y hxy)⟩

theorem spawn_obstacles_fields (fuel : Nat) (s : GameState) (g : RNG)
    (t : GameState) (g' : RNG) (h : spawn_obstacles fuel s g = some (t, g')) :
    t.snakeX = s.snakeX ∧ t.snakeY = s.snakeY ∧ t.snakeLength = s.snakeLength ∧
    t.snakeDir = s.snakeDir ∧ t.pendingDir = s.pendingDir ∧
    t.foodX = s.foodX ∧ t.foodY = s.foodY ∧ t.itemType = s.itemType ∧
    t.phaseTimer = s.phaseTimer ∧ t.speedTimer = s.speedTimer ∧
    t.score = s.score ∧ t.highscore = s.highscore ∧ t.state = s.state ∧
    t.moveCounter = s.moveCounter ∧ t.frameCount = s.frameCount ∧
    (∀ x y, border_cell x y = true → t.obstacle x y = true) := by
  unfold spawn_obstacles at h
  obtain ⟨e1, e2, e3, e4, e5, e6, e7, e8, e9, e10, e11, e12, e13, e14, e15, e16,
    e17, e18, e19⟩ := spawn_obstacles_go_fields 12 fuel _ g t g' h
  exact ⟨e1, e2, e3, e4, e5, e6, e7, e8, e11, e12, e14, e15, e16, e17, e18,
    fun x y hxy => e19 x y (by simp [hxy])⟩

theorem game_reset_spec (fuel : Nat) (s : GameState) (g : RNG) (t : GameState) (g' : RNG)
    (h : game_reset fuel s g = some (t, g')) :
    t.snakeX = 20 :: 19 :: 18 :: s.snakeX.drop 3 ∧
    t.snakeY = 15 :: 15 :: 15 :: s.snakeY.drop 3 ∧
    t.snakeLength = 3 ∧ t.snakeDir = DIR_RIGHT ∧ t.pendingDir = DIR_RIGHT ∧
    t.score = 0 ∧ t.highscore = s.highscore ∧ t.phaseTimer = 0 ∧ t.speedTimer = 0 ∧
    t.moveCounter = 8 ∧ t.frameCount = 0 ∧ t.state = s.state ∧
    (∀ x y, border_cell x y = true → t.obstacle x y = true) := by
  unfold game_reset at h
  rcases Option.bind_eq_some.mp h with ⟨q, hq, h2⟩
  rcases spawn_food_shape _ _ _ _ _ hq with ⟨p, hp, hq1, hq2⟩
  have hob := spawn_obstacles_fields _ _ _ _ _ h2
  rw [hq1] at hob
  obtain ⟨e1, e2, e3, e4, e5, e6, e7, e8, e9, e10, e11, e12, e13, e14, e15, e16⟩ := hob
  exact ⟨e1, e2, e3, e4, e5, e11, e12, e9, e10, e14, e15, e13, e16⟩

theorem shiftArr_headD (l : List Int) (L : Nat) (v : Int) : (shiftArr l L v).headD 0 = v := rfl

theorem dupTail_headD (l : List Int) (L : Nat) (v : Int) :
    (dupTail (v :: l) L).head?.getD 0 = v := by
  cases L with
  | zero => simp [dupTail]
  | succ n => simp [dupTail]

theorem wrapX_mem (x : Int) : 0 ≤ wrapX x ∧ wrapX x < 40 := by
  unfold wrapX
  split_ifs <;> omega

theorem wrapY_mem (y : Int) : 0 ≤ wrapY y ∧ wrapY y < 30 := by
  unfold wrapY
  split_ifs <;> omega

theorem update_snake_commit_eq (fuel : Nat) (s : GameState) (g : RNG)
    (hnf : ¬ fatal_tick s) :
    update_snake fuel s g =
      snake_commit fuel {s with snakeDir := s.pendingDir}
        (wrapped_candidate s).1 (wrapped_candidate s).2 g := by
  unfold fatal_tick at hnf
  push_neg at hnf
  obtain ⟨h1, h2, h3⟩ := hnf
  by_cases hph : 0 < s.phaseTimer
  · have hwc : wrapped_candidate s = (wrapX (tickCandidate s).1, wrapY (tickCandidate s).2) := by
      unfold wrapped_candidate
      rw [if_pos hph]
    simp only [update_snake]
    rw [if_pos hph]
    rw [hwc] at h3 ⊢
    unfold snake_checks_commit
    rw [if_neg (by
      have hd : decide (s.phaseTimer ≤ 0) = false := by
        simp only [decide_eq_false_iff_not]
        omega
      simp [hd])]
    rw [if_neg (by
      intro hc
      exact h3 (by simpa [tickCandidate] using hc))]
    rfl
  · have hple : s.phaseTimer ≤ 0 := by omega
    have hb := h1 hple
    have hwc : wrapped_candidate s = tickCandidate s := by
      unfold wrapped_candidate
      rw [if_neg hph]
    simp only [update_snake]
    rw [if_neg hph]
    rw [hwc] at h3 ⊢
    have hbool : (decide ((tickCandidate s).1 < 0) || decide (40 ≤ (tickCandidate s).1) ||
        decide ((tickCandidate s).2 < 0) || decide (30 ≤ (tickCandidate s).2)) = false := by
      simp only [Bool.or_eq_false_iff, decide_eq_false_iff_not]
      omega
    rw [if_neg (by
      simp only [tickCandidate] at hbool
      simp only [hbool]
      exact Bool.false_ne_true)]
    unfold snake_checks_commit
    rw [if_neg (by
      have hself : inSnake s (tickCandidate s).1 (tickCandidate s).2 = false := by
        simpa using h2 hple
      simp only [tickCandidate, inSnake, snakeBody] at hself
      simp only [inSnake, snakeBody]
      simp only [hself, Bool.and_false]
      exact Bool.false_ne_true)]
    rw [if_neg (by
      intro hc
      exact h3 (by simpa [tickCandidate] using hc))]
    rfl

theorem bump_highscore_fields (s : GameState) :
    (bump_highscore s).snakeX = s.snakeX ∧ (bump_highscore s).snakeY = s.snakeY ∧
    (bump_highscore s).snakeLength = s.snakeLength ∧
    (bump_highscore s).snakeDir = s.snakeDir ∧ (bump_highscore s).pendingDir = s.pendingDir ∧
    (bump_highscore s).foodX = s.foodX ∧ (bump_highscore s).foodY = s.foodY ∧
    (bump_highscore s).itemType = s.itemType ∧ (bump_highscore s).itemX = s.itemX ∧
    (bump_highscore s).itemY = s.itemY ∧ (bump_highscore s).phaseTimer = s.phaseTimer ∧
    (bump_highscore s).speedTimer = s.speedTimer ∧ (bump_highscore s).particles = s.particles ∧
    (bump_highscore s).obstacle = s.obstacle ∧
    (bump_highscore s).obstacleCount = s.obstacleCount ∧
    (bump_highscore s).score = s.score ∧ (bump_highscore s).state = s.state ∧
    (bump_highscore s).moveCounter = s.moveCounter ∧
    (bump_highscore s).frameCount = s.frameCount := by
  unfold bump_highscore
  split <;>
    exact ⟨rfl, rfl, rfl, rfl, rfl, rfl, rfl, rfl, rfl, rfl, rfl, rfl, rfl, rfl, rfl, rfl,
      rfl, rfl, rfl⟩

theorem bump_highscore_highscore (s : GameState) :
    (bump_highscore s).highscore = if s.highscore < s.score then s.score else s.highscore := by
  unfold bump_highscore
  split_ifs <;> rfl

theorem add_food_score_fields (s : GameState) :
    (add_food_score s).snakeX = s.snakeX ∧ (add_food_score s).snakeY = s.snakeY ∧
    (add_food_score s).snakeLength = s.snakeLength ∧
    (add_food_score s).snakeDir = s.snakeDir ∧ (add_food_score s).pendingDir = s.pendingDir ∧
    (add_food_score s).foodX = s.foodX ∧ (add_food_score s).foodY = s.foodY ∧
    (add_food_score s).itemType = s.itemType ∧ (add_food_score s).itemX = s.itemX ∧
    (add_food_score s).itemY = s.itemY ∧ (add_food_score s).phaseTimer = s.phaseTimer ∧
    (add_food_score s).speedTimer = s.speedTimer ∧
    (add_food_score s).particles = s.particles ∧
    (add_food_score s).obstacle = s.obstacle ∧
    (add_food_score s).obstacleCount = s.obstacleCount ∧
    (add_food_score s).state = s.state ∧ (add_food_score s).moveCounter = s.moveCounter ∧
    (add_food_score s).frameCount = s.frameCount := by
  obtain ⟨b1, b2, b3, b4, b5, b6, b7, b8, b9, b10, b11, b12, b13, b14, b15, b16, b17,
    b18, b19⟩ := bump_highscore_fields {s with score := s.score + 10}
  exact ⟨b1, b2, b3, b4, b5, b6, b7, b8, b9, b10, b11, b12, b13, b14, b15, b17, b18, b19⟩

theorem add_food_score_score (s : GameState) : (add_food_score s).score = s.score + 10 :=
  (bump_highscore_fields {s with score := s.score + 10}).2.2.2.2.2.2.2.2.2.2.2.2.2.2.2.1

theorem add_food_score_highscore (s : GameState) :
    (add_food_score s).highscore =
      if s.highscore < s.score + 10 then s.score + 10 else s.highscore :=
  bump_highscore_highscore {s with score := s.score + 10}

theorem grow_if_possible_fields (s : GameState) (L : Nat) :
    (grow_if_possible s L).snakeDir = s.snakeDir ∧
    (grow_if_possible s L).pendingDir = s.pendingDir ∧
    (grow_if_possible s L).foodX = s.foodX ∧ (grow_if_possible s L).foodY = s.foodY ∧
    (grow_if_possible s L).itemType = s.itemType ∧ (grow_if_possible s L).itemX = s.itemX ∧
    (grow_if_possible s L).itemY = s.itemY ∧
    (grow_if_possible s L).phaseTimer = s.phaseTimer ∧
    (grow_if_possible s L).speedTimer = s.speedTimer ∧
    (grow_if_possible s L).particles = s.particles ∧
    (grow_if_possible s L).obstacle = s.obstacle ∧
    (grow_if_possible s L).obstacleCount = s.obstacleCount ∧
    (grow_if_possible s L).score = s.score ∧
    (grow_if_possible s L).highscore = s.highscore ∧
    (grow_if_possible s L).state = s.state ∧
    (grow_if_possible s L).moveCounter = s.moveCounter ∧
    (grow_if_possible s L).frameCount = s.frameCount := by
  unfold grow_if_possible
  split <;>
    exact ⟨rfl, rfl, rfl, rfl, rfl, rfl, rfl, rfl, rfl, rfl, rfl, rfl, rfl, rfl, rfl, rfl, rfl⟩

theorem grow_if_possible_snakeLength (s : GameState) (L : Nat) :
    (grow_if_possible s L).snakeLength =
      if s.snakeLength < 1200 then s.snakeLength + 1 else s.snakeLength := by
  unfold grow_if_possible
  split_ifs <;> rfl

theorem grow_if_possible_snakeX (s : GameState) (L : Nat) :
    (grow_if_possible s L).snakeX =
      if s.snakeLength < 1200 then dupTail s.snakeX L else s.snakeX := by
  unfold grow_if_possible
  split_ifs <;> rfl

theorem grow_if_possible_snakeY (s : GameState) (L : Nat) :
    (grow_if_possible s L).snakeY =
      if s.snakeLength < 1200 then dupTail s.snakeY L else s.snakeY := by
  unfold grow_if_possible
  split_ifs <;> rfl

theorem snake_commit_spec (fuel : Nat) (s : GameState) (nx ny : Int) (g : RNG)
    (t : GameState) (g' : RNG) (h : snake_commit fuel s nx ny g = some (t, g')) :
    t.snakeDir = s.snakeDir ∧ t.pendingDir = s.pendingDir ∧
    t.obstacle = s.obstacle ∧ t.obstacleCount = s.obstacleCount ∧
    t.state = s.state ∧ t.moveCounter = s.moveCounter ∧ t.frameCount = s.frameCount ∧
    t.snakeX.headD 0 = nx ∧ t.snakeY.headD 0 = ny ∧
    ((t.score = s.score ∧ t.highscore = s.highscore) ∨
     (t.score = s.score + 10 ∧
      t.highscore = if s.highscore < s.score + 10 then s.score + 10 else s.highscore)) := by
  unfold snake_commit at h
  by_cases hf : ((nx == s.foodX) && (ny == s.foodY)) = true
  · rw [if_pos hf] at h
    rcases Option.bind_eq_some.mp h with ⟨q, hq, h2⟩
    rcases Option.bind_eq_some.mp h2 with ⟨r, hr, h3⟩
    simp only [Option.some.injEq] at h3
    have ht : t = (item_contact nx ny r.1 r.2).1 := (congrArg Prod.fst h3).symm
    obtain ⟨i1, i2, i3, i4, i5, i6, i7, i8, i9, i10, i11, i12, i13, i14⟩ :=
      item_contact_fields nx ny r.1 r.2
    obtain ⟨j1, j2, j3, j4, j5, j6, j7, j8, j9, j10, j11, j12, j13, j14, j15, j16, j17⟩ :=
      spawn_item_fields _ _ _ _ _ hr
    obtain ⟨p, hp, hq1, hq2⟩ := spawn_food_shape _ _ _ _ _ hq
    obtain ⟨a1, a2, a3, a4, a5, a6, a7, a8, a9, a10, a11, a12, a13, a14, a15, a16, a17,
      a18⟩ := add_food_score_fields (grow_if_possible
        {s with snakeX := shiftArr s.snakeX s.snakeLength.toNat nx,
                snakeY := shiftArr s.snakeY s.snakeLength.toNat ny} s.snakeLength.toNat)
    obtain ⟨g1, g2, g3, g4, g5, g6, g7, g8, g9, g10, g11, g12, g13, g14, g15, g16, g17⟩ :=
      grow_if_possible_fields
        {s with snakeX := shiftArr s.snakeX s.snakeLength.toNat nx,
                snakeY := shiftArr s.snakeY s.snakeLength.toNat ny} s.snakeLength.toNat
    refine ⟨?_, ?_, ?_, ?_, ?_, ?_, ?_, ?_, ?_, Or.inr ⟨?_, ?_⟩⟩
    · rw [ht, i4, j4, hq1]; simp only [spawn_particles]; exact a4.trans g1
    · rw [ht, i5, j5, hq1]; simp only [spawn_particles]; exact a5.trans g2
    · rw [ht, i8, j11, hq1]; simp only [spawn_particles]; exact a14.trans g11
    · rw [ht, i9, j12, hq1]; simp only [spawn_particles]; exact a15.trans g12
    · rw [ht, i12, j15, hq1]; simp only [spawn_particles]; exact a16.trans g15
    · rw [ht, i13, j16, hq1]; simp only [spawn_particles]; exact a17.trans g16
    · rw [ht, i14, j17, hq1]; simp only [spawn_particles]; exact a18.trans g17
    · rw [ht, i1, j1, hq1]
      simp only [spawn_particles]
      rw [a1, grow_if_possible_snakeX]
      split
      · simp [shiftArr, dupTail_headD]
      · simp [shiftArr]
    · rw [ht, i2, j2, hq1]
      simp only [spawn_particles]
      rw [a2, grow_if_possible_snakeY]
      split
      · simp [shiftArr, dupTail_headD]
      · simp [shiftArr]
    · rw [ht, i10, j13, hq1]
      simp only [spawn_particles]
      exact (add_food_score_score _).trans (by rw [g13])
    · rw [ht, i11, j14, hq1]
      simp only [spawn_particles]
      rw [add_food_score_highscore, g13, g14]
  · rw [if_neg hf] at h
    simp only [Option.some.injEq] at h
    have ht : t = (item_contact nx ny
        {s with snakeX := shiftArr s.snakeX s.snakeLength.toNat nx,
                snakeY := shiftArr s.snakeY s.snakeLength.toNat ny} g).1 :=
      (congrArg Prod.fst h).symm
    obtain ⟨i1, i2, i3, i4, i5, i6, i7, i8, i9, i10, i11, i12, i13, i14⟩ :=
      item_contact_fields nx ny
        {s with snakeX := shiftArr s.snakeX s.snakeLength.toNat nx,
                snakeY := shiftArr s.snakeY s.snakeLength.toNat ny} g
    refine ⟨?_, ?_, ?_, ?_, ?_, ?_, ?_, ?_, ?_, Or.inl ⟨?_, ?_⟩⟩
    · rw [ht, i4]
    · rw [ht, i5]
    · rw [ht, i8]
    · rw [ht, i9]
    · rw [ht, i12]
    · rw [ht, i13]
    · rw [ht, i14]
    · rw [ht, i1]; simp [shiftArr]
    · rw [ht, i2]; simp [shiftArr]
    · rw [ht, i10]
    · rw [ht, i11]

theorem obstacle_false_of_check (s : GameState) (x y : Int)
    (h0 : 0 ≤ x) (h1 : x < 40) (h2 : 0 ≤ y) (h3 : y < 30)
    (hc : check_obstacle_collision s x y = false) : s.obstacle x y = false := by
  cases hob : s.obstacle x y with
  | false => rfl
  | true =>
    rw [check_obstacle_collision, hob] at hc
    simp [h0, h1, h2, h3] at hc

theorem wrapped_candidate_bounds (s : GameState) (hnf : ¬ fatal_tick s) :
    0 ≤ (wrapped_candidate s).1 ∧ (wrapped_candidate s).1 < 40 ∧
    0 ≤ (wrapped_candidate s).2 ∧ (wrapped_candidate s).2 < 30 := by
  unfold fatal_tick at hnf
  push_neg at hnf
  obtain ⟨h1, -, -⟩ := hnf
  unfold wrapped_candidate
  split_ifs with hph
  · exact ⟨(wrapX_mem _).1, (wrapX_mem _).2, (wrapY_mem _).1, (wrapY_mem _).2⟩
  · exact h1 (by omega)

theorem update_snake_spec (fuel : Nat) (s : GameState) (g : RNG) (t : GameState) (g' : RNG)
    (h : update_snake fuel s g = some (t, g')) :
    t.snakeDir = s.pendingDir ∧ t.pendingDir = s.pendingDir ∧
    t.obstacle = s.obstacle ∧ t.obstacleCount = s.obstacleCount ∧
    t.moveCounter = s.moveCounter ∧ t.frameCount = s.frameCount ∧
    (t.state = s.state ∨ t.state = STATE_GAMEOVER) ∧
    ((t.score = s.score ∧ t.highscore = s.highscore) ∨
     (t.score = s.score + 10 ∧
      t.highscore = if s.highscore < s.score + 10 then s.score + 10 else s.highscore)) ∧
    ((t.snakeX = s.snakeX ∧ t.snakeY = s.snakeY) ∨
     (s.obstacle (t.snakeX.headD 0) (t.snakeY.headD 0) = false ∧
      0 ≤ t.snakeX.headD 0 ∧ t.snakeX.headD 0 < 40 ∧
      0 ≤ t.snakeY.headD 0 ∧ t.snakeY.headD 0 < 30)) := by
  by_cases hfat : fatal_tick s
  · rw [update_snake_fatal_eq fuel s g hfat] at h
    simp only [Option.some.injEq, Prod.mk.injEq] at h
    obtain ⟨ht, -⟩ := h
    rw [← ht]
    exact ⟨rfl, rfl, rfl, rfl, rfl, rfl, Or.inr rfl, Or.inl ⟨rfl, rfl⟩, Or.inl ⟨rfl, rfl⟩⟩
  · rw [update_snake_commit_eq fuel s g hfat] at h
    obtain ⟨c1, c2, c3, c4, c5, c6, c7, c8, c9, c10⟩ := snake_commit_spec _ _ _ _ _ _ _ h
    have hb := wrapped_candidate_bounds s hfat
    have hcheck : check_obstacle_collision s (wrapped_candidate s).1
        (wrapped_candidate s).2 = false := by
      unfold fatal_tick at hfat
      push_neg at hfat
      simpa using hfat.2.2
    have hobs := obstacle_false_of_check s _ _ hb.1 hb.2.1 hb.2.2.1 hb.2.2.2 hcheck
    refine ⟨c1, c2, c3, c4, c6, c7, Or.inl c5, c10, Or.inr ?_⟩
    rw [c8, c9]
    exact ⟨hobs, hb.1, hb.2.1, hb.2.2.1, hb.2.2.2⟩

theorem apply_dir_input_dirs (inp : InputFrame) (s : GameState)
    (h : s.pendingDir ≠ opposite s.snakeDir) :
    (apply_dir_input inp s).pendingDir ≠ opposite (apply_dir_input inp s).snakeDir := by
  unfold apply_dir_input
  split
  · exact pending_after_ok inp.up inp.down inp.left inp.right s.snakeDir s.pendingDir h
  · exact h

theorem handle_input_dir_invariant (fuel : Nat) (inp : InputFrame) (prev : PrevButtons)
    (s : GameState) (g : RNG) (t : GameState) (p' : PrevButtons) (g' : RNG)
    (h : handle_input fuel inp prev s g = some (t, p', g'))
    (hinv : s.pendingDir ≠ opposite s.snakeDir) :
    t.pendingDir ≠ opposite t.snakeDir := by
  unfold handle_input at h
  rcases Option.bind_eq_some.mp h with ⟨q, hq, h2⟩
  simp only [Option.some.injEq, Prod.mk.injEq] at h2
  obtain ⟨ht, -, -⟩ := h2
  have hqinv : q.1.pendingDir ≠ opposite q.1.snakeDir := by
    by_cases hs : (inp.start && !prev.start) = true
    · rw [if_pos hs] at hq
      split at hq
      · obtain ⟨-, -, -, h4, h5, -⟩ := game_reset_spec _ _ _ q.1 q.2 hq
        rw [h4, h5]
        decide
      · simp only [Option.some.injEq] at hq
        rw [← hq]
        exact hinv
      · simp only [Option.some.injEq] at hq
        rw [← hq]
        exact hinv
      · obtain ⟨-, -, -, h4, h5, -⟩ := game_reset_spec _ _ _ q.1 q.2 hq
        rw [h4, h5]
        decide
    · rw [if_neg hs] at hq
      simp only [Option.some.injEq] at hq
      rw [← hq]
      exact hinv
  rw [← ht]
  by_cases hsel : (inp.sel && !prev.sel && (q.1.state == STATE_TITLE)) = true
  · rw [if_pos hsel]
    exact apply_dir_input_dirs inp _ hqinv
  · rw [if_neg hsel]
    exact apply_dir_input_dirs inp _ hqinv

/-- C8: the buffered pending direction is never the reverse of the current
direction.  Input handling preserves the invariant for every button
combination (rejecting a request that reverses the current direction or
whose reverse is already buffered), a tick re-establishes it when it adopts
the pending direction, and with the snake facing right a requested left
leaves the buffered direction right. -/
theorem c8_pending_never_reverse :
    (∀ fuel inp prev s g t p' g',
       handle_input fuel inp prev s g = some (t, p', g') →
       s.pendingDir ≠ opposite s.snakeDir → t.pendingDir ≠ opposite t.snakeDir) ∧
    (∀ fuel s g t g', update_snake fuel s g = some (t, g') →
       t.pendingDir ≠ opposite t.snakeDir) ∧
    (∀ (inp : InputFrame) (s : GameState), s.state = STATE_PLAY →
       s.snakeDir = DIR_RIGHT → s.pendingDir = DIR_RIGHT →
       inp.up = false → inp.down = false → inp.left = true →
       (apply_dir_input inp s).pendingDir = DIR_RIGHT) := by
  refine ⟨fun fuel inp prev s g t p' g' h hinv =>
    handle_input_dir_invariant fuel inp prev s g t p' g' h hinv,
    fun fuel s g t g' h => ?_, fun inp s hplay hdir hpend hup hdown hleft => ?_⟩
  · obtain ⟨h1, h2, -⟩ := update_snake_spec _ _ _ _ _ h
    rw [h1, h2]
    exact opposite_ne s.pendingDir
  · unfold apply_dir_input
    rw [if_pos (show (s.state == STATE_PLAY) = true by rw [hplay]; decide)]
    cases hr : inp.right <;>
      simp [pending_after, hup, hdown, hleft, hdir, hpend, hr]

/-- Witness for C8: at the baseline play state (facing right, pending right)
a pressed left is rejected and the buffer stays right. -/
theorem c8_witness :
    (apply_dir_input ⟨false, false, true, false, false, false⟩ baseState).pendingDir =
      DIR_RIGHT :=
  c8_pending_never_reverse.2.2 ⟨false, false, true, false, false, false⟩ baseState
    rfl rfl rfl rfl rfl rfl

theorem dupTail_cons (l : List Int) (L : Nat) (v : Int) :
    ∃ r, dupTail (v :: l) L = v :: r := by
  cases L with
  | zero => exact ⟨l, by simp [dupTail]⟩
  | succ n => exact ⟨l.set n ((v :: l).getD n 0), by simp [dupTail]⟩

theorem inSnake_cons (w : GameState) (x y : Int) (rx ry : List Int)
    (hx : w.snakeX = x :: rx) (hy : w.snakeY = y :: ry) (hw : 1 ≤ w.snakeLength) :
    inSnake w x y = true := by
  unfold inSnake snakeBody
  rw [hx, hy]
  have hn : w.snakeLength.toNat = (w.snakeLength.toNat - 1) + 1 := by omega
  rw [hn]
  simp

theorem spawn_food_neq_head (fuel : Nat) (w : GameState) (g : RNG) (t : GameState)
    (g' : RNG) (hw : 1 ≤ w.snakeLength) (x y : Int)
    (hx : ∃ rx, w.snakeX = x :: rx) (hy : ∃ ry, w.snakeY = y :: ry)
    (h : spawn_food fuel w g = some (t, g')) :
    ¬ (t.foodX = x ∧ t.foodY = y) := by
  obtain ⟨p, hp, ht, -⟩ := spawn_food_shape _ _ _ _ _ h
  obtain ⟨rx, hx⟩ := hx
  obtain ⟨ry, hy⟩ := hy
  have hfree := random_free_cell_free _ _ _ _ _ _ hp
  intro hcontra
  have hpx : p.1.1 = x := by
    have : t.foodX = p.1.1 := by rw [ht]
    exact this.symm.trans hcontra.1
  have hpy : p.1.2 = y := by
    have : t.foodY = p.1.2 := by rw [ht]
    exact this.symm.trans hcontra.2
  have hfalse := hfree.1
  rw [hpx, hpy] at hfalse
  rw [inSnake_cons w x y rx ry hx hy hw] at hfalse
  exact absurd hfalse (by decide)

theorem snake_commit_food_spec (fuel : Nat) (u : GameState) (nx ny : Int) (g : RNG)
    (t : GameState) (g' : RNG) (hL : 1 ≤ u.snakeLength)
    (hf : ((nx == u.foodX) && (ny == u.foodY)) = true)
    (h : snake_commit fuel u nx ny g = some (t, g')) :
    t.snakeLength = (if u.snakeLength < 1200 then u.snakeLength + 1 else u.snakeLength) ∧
    t.score = u.score + 10 ∧
    t.highscore = (if u.highscore < u.score + 10 then u.score + 10 else u.highscore) ∧
    ¬ (t.foodX = nx ∧ t.foodY = ny) := by
  unfold snake_commit at h
  rw [if_pos hf] at h
  rcases Option.bind_eq_some.mp h with ⟨q, hq, h2⟩
  rcases Option.bind_eq_some.mp h2 with ⟨r, hr, h3⟩
  simp only [Option.some.injEq] at h3
  have ht : t = (item_contact nx ny r.1 r.2).1 := (congrArg Prod.fst h3).symm
  obtain ⟨i1, i2, i3, i4, i5, i6, i7, i8, i9, i10, i11, i12, i13, i14⟩ :=
    item_contact_fields nx ny r.1 r.2
  obtain ⟨j1, j2, j3, j4, j5, j6, j7, j8, j9, j10, j11, j12, j13, j14, j15, j16, j17⟩ :=
    spawn_item_fields _ _ _ _ _ hr
  obtain ⟨p, hp, hq1, hq2⟩ := spawn_food_shape _ _ _ _ _ hq
  obtain ⟨a1, a2, a3, a4, a5, a6, a7, a8, a9, a10, a11, a12, a13, a14, a15, a16, a17,
    a18⟩ := add_food_score_fields (grow_if_possible
      {u with snakeX := shiftArr u.snakeX u.snakeLength.toNat nx,
              snakeY := shiftArr u.snakeY u.snakeLength.toNat ny} u.snakeLength.toNat)
  obtain ⟨g1, g2, g3, g4, g5, g6, g7, g8, g9, g10, g11, g12, g13, g14, g15, g16, g17⟩ :=
    grow_if_possible_fields
      {u with snakeX := shiftArr u.snakeX u.snakeLength.toNat nx,
              snakeY := shiftArr u.snakeY u.snakeLength.toNat ny} u.snakeLength.toNat
  refine ⟨?_, ?_, ?_, ?_⟩
  · rw [ht, i3, j3, hq1]
    simp only [spawn_particles]
    exact a3.trans (grow_if_possible_snakeLength _ _)
  · rw [ht, i10, j13, hq1]
    simp only [spawn_particles]
    exact (add_food_score_score _).trans (by rw [g13])
  · rw [ht, i11, j14, hq1]
    simp only [spawn_particles]
    rw [add_food_score_highscore, g13, g14]
  · have hcfx : t.foodX = q.1.foodX := by rw [ht, i6, j6]
    have hcfy : t.foodY = q.1.foodY := by rw [ht, i7, j7]
    have hneq : ¬ (q.1.foodX = nx ∧ q.1.foodY = ny) := by
      apply spawn_food_neq_head _ _ _ _ _ ?hw nx ny ?hx ?hy hq
      case hw =>
        simp only [spawn_particles]
        rw [a3, grow_if_possible_snakeLength]
        show 1 ≤ if u.snakeLength < 1200 then u.snakeLength + 1 else u.snakeLength
        split <;> omega
      case hx =>
        simp only [spawn_particles]
        rw [a1, grow_if_possible_snakeX]
        show ∃ rx, (if u.snakeLength < 1200 then
            dupTail (shiftArr u.snakeX u.snakeLength.toNat nx) u.snakeLength.toNat
          else shiftArr u.snakeX u.snakeLength.toNat nx) = nx :: rx
        split
        · simpa [shiftArr] using
            dupTail_cons (u.snakeX.take (u.snakeLength.toNat - 1) ++
              u.snakeX.drop (max u.snakeLength.toNat 1)) u.snakeLength.toNat nx
        · exact ⟨_, rfl⟩
      case hy =>
        simp only [spawn_particles]
        rw [a2, grow_if_possible_snakeY]
        show ∃ ry, (if u.snakeLength < 1200 then
            dupTail (shiftArr u.snakeY u.snakeLength.toNat ny) u.snakeLength.toNat
          else shiftArr u.snakeY u.snakeLength.toNat ny) = ny :: ry
        split
        · simpa [shiftArr] using
            dupTail_cons (u.snakeY.take (u.snakeLength.toNat - 1) ++
              u.snakeY.drop (max u.snakeLength.toNat 1)) u.snakeLength.toNat ny
        · exact ⟨_, rfl⟩
    intro hcontra
    exact hneq ⟨hcfx.symm.trans hcontra.1, hcfy.symm.trans hcontra.2⟩

/-- C7: a non-fatal tick whose committed head cell equals the food cell grows
the snake by one (capped at MAX_SNAKE_LENGTH = 1200 while the score still
increases), adds exactly 10 to the score, raises the high score when
exceeded, and relocates the food to a cell distinct from the old food cell. -/
theorem c7_food_tick (fuel : Nat) (s : GameState) (g : RNG) (t : GameState) (g' : RNG)
    (hlen : 1 ≤ s.snakeLength) (hnf : ¬ fatal_tick s)
    (hfood : wrapped_candidate s = (s.foodX, s.foodY))
    (hrun : update_snake fuel s g = some (t, g')) :
    t.snakeLength = (if s.snakeLength < 1200 then s.snakeLength + 1 else s.snakeLength) ∧
    t.score = s.score + 10 ∧
    t.highscore = (if s.highscore < s.score + 10 then s.score + 10 else s.highscore) ∧
    ¬ (t.foodX = s.foodX ∧ t.foodY = s.foodY) := by
  rw [update_snake_commit_eq fuel s g hnf, hfood] at hrun
  exact snake_commit_food_spec fuel {s with snakeDir := s.pendingDir} s.foodX s.foodY g
    t g' hlen (by simp) hrun

/-- Witness for C7: the concrete food tick grows the snake from 3 to 4, sets
the score to 10 and the high score to 10, and moves the food off (6, 5). -/
theorem c7_witness :
    c7Result.snakeLength =
      (if c7State.snakeLength < 1200 then c7State.snakeLength + 1
       else c7State.snakeLength) ∧
    c7Result.score = c7State.score + 10 ∧
    c7Result.highscore =
      (if c7State.highscore < c7State.score + 10 then c7State.score + 10
       else c7State.highscore) ∧
    ¬ (c7Result.foodX = c7State.foodX ∧ c7Result.foodY = c7State.foodY) :=
  c7_food_tick 1 c7State c7Rng c7Result ((c7Run).getD (c7State, c7Rng)).2
    (by decide) (by decide) (by decide) rfl

/-- C2 counterexample: on a Playing frame where no tick occurs (the move
counter goes 3 → 2 and the snake does not move), both timers still change:
the phase timer goes 5 → 4 and the speed timer 2 → 1, refuting the claim
that the timers are decremented per simulation tick and unchanged on
tick-free frames. -/
theorem c2_counterexample :
    ((retro_run_frame 0 neutralInput prev0 c2State idRng).map
        fun q => (q.1.phaseTimer, q.1.speedTimer, q.1.moveCounter,
          q.1.snakeX.headD 0, q.1.snakeLength)) =
      some (4, 1, 2, 0, 3) ∧
    c2State.phaseTimer = 5 ∧ c2State.speedTimer = 2 ∧ c2State.moveCounter = 3 ∧
    c2State.snakeX.headD 0 = 0 ∧ c2State.snakeLength = 3 ∧
    ¬ ((retro_run_frame 0 neutralInput prev0 c2State idRng).map
        fun q => q.1.phaseTimer) = some c2State.phaseTimer := by
  refine ⟨rfl, rfl, rfl, rfl, rfl, rfl, ?_⟩
  intro h
  simp only [show (retro_run_frame 0 neutralInput prev0 c2State idRng).map
      (fun q => q.1.phaseTimer) = some 4 from rfl] at h
  exact absurd (Option.some.inj h) (by decide)

/-- C2 (amended): while the state is Playing, both timers are decremented
exactly once per frame when positive — also on frames where no tick occurs,
which refutes the per-tick reading — and the speed effect is active iff the
speed timer is positive: on a tick frame the move counter is reset to
BASE_MOVE_INTERVAL / 2 = 4 instead of 8 exactly when the decremented speed
timer is still positive.  (Phasing is active iff the phase timer is positive
at the tick, per the wall/self handling of update_snake.) -/
theorem c2_timers_per_frame (fuel : Nat) (inp : InputFrame) (prev : PrevButtons)
    (s : GameState) (g : RNG) (s1 : GameState) (prev1 : PrevButtons) (g1 : RNG)
    (hinp : handle_input fuel inp prev s g = some (s1, prev1, g1))
    (hplay : s1.state = STATE_PLAY) :
    (1 < s1.moveCounter →
      ∃ s2, retro_run_frame fuel inp prev s g = some (s2, prev1, g1) ∧
        s2.phaseTimer = (if 0 < s1.phaseTimer then s1.phaseTimer - 1 else s1.phaseTimer) ∧
        s2.speedTimer = (if 0 < s1.speedTimer then s1.speedTimer - 1 else s1.speedTimer) ∧
        s2.moveCounter = s1.moveCounter - 1 ∧
        s2.snakeX = s1.snakeX ∧ s2.snakeY = s1.snakeY ∧
        s2.snakeLength = s1.snakeLength) ∧
    (∀ s2 prev2 g2, s1.moveCounter ≤ 1 →
      retro_run_frame fuel inp prev s g = some (s2, prev2, g2) →
      s2.moveCounter =
        (if 0 < (if 0 < s1.speedTimer then s1.speedTimer - 1 else s1.speedTimer)
         then 4 else 8)) := by
  have hcond : (s1.state == STATE_PLAY) = true := by rw [hplay]; decide
  unfold retro_run_frame
  rw [hinp]
  simp only [Option.some_bind]
  rw [if_pos hcond]
  constructor
  · intro hmc
    have hmc' : ¬ (s1.moveCounter - 1 ≤ 0) := by omega
    by_cases hph : 0 < s1.phaseTimer <;> by_cases hsp : 0 < s1.speedTimer
    · rw [if_pos hph, if_pos hsp, if_neg hmc']
      refine ⟨_, rfl, ?_, ?_, ?_, ?_, ?_, ?_⟩ <;>
        simp [update_particles, if_pos hph, if_pos hsp]
    · rw [if_pos hph, if_neg hsp, if_neg hmc']
      refine ⟨_, rfl, ?_, ?_, ?_, ?_, ?_, ?_⟩ <;>
        simp [update_particles, if_pos hph, if_neg hsp]
    · rw [if_neg hph, if_pos hsp, if_neg hmc']
      refine ⟨_, rfl, ?_, ?_, ?_, ?_, ?_, ?_⟩ <;>
        simp [update_particles, if_neg hph, if_pos hsp]
    · rw [if_neg hph, if_neg hsp, if_neg hmc']
      refine ⟨_, rfl, ?_, ?_, ?_, ?_, ?_, ?_⟩ <;>
        simp [update_particles, if_neg hph, if_neg hsp]
  · intro s2 prev2 g2 hmc hrun
    have hmc' : s1.moveCounter - 1 ≤ 0 := by omega
    by_cases hph : 0 < s1.phaseTimer <;> by_cases hsp : 0 < s1.speedTimer <;>
      [(rw [if_pos hph, if_pos hsp, if_pos hmc'] at hrun; rw [if_pos hsp]);
       (rw [if_pos hph, if_neg hsp, if_pos hmc'] at hrun; rw [if_neg hsp]);
       (rw [if_neg hph, if_pos hsp, if_pos hmc'] at hrun; rw [if_pos hsp]);
       (rw [if_neg hph, if_neg hsp, if_pos hmc'] at hrun; rw [if_neg hsp])] <;>
    · rcases Option.map_eq_some'.mp hrun with ⟨b, hb, hbe⟩
      rcases Option.map_eq_some'.mp hb with ⟨c, hc, hce⟩
      rcases Option.map_eq_some'.mp hc with ⟨d, hd, hde⟩
      subst hde
      subst hce
      simp only [Prod.mk.injEq] at hbe
      obtain ⟨hs2, -, -⟩ := hbe
      rw [← hs2]
      rfl

/-- Witness for C2: on the concrete Playing state with phase timer 5, speed
timer 2 and move counter 3, a neutral-input frame (no tick: counter drops
3 → 2) decrements both timers to 4 and 1. -/
theorem c2_witness :
    handle_input 0 neutralInput prev0 c2State idRng = some (c2State, prev0, idRng) ∧
    c2State.state = STATE_PLAY ∧ 1 < c2State.moveCounter ∧
    ∃ s2, retro_run_frame 0 neutralInput prev0 c2State idRng = some (s2, prev0, idRng) ∧
      s2.phaseTimer = 4 ∧ s2.speedTimer = 1 ∧ s2.moveCounter = 2 := by
  refine ⟨rfl, rfl, by decide, ?_⟩
  obtain ⟨hA, -⟩ :=
    c2_timers_per_frame 0 neutralInput prev0 c2State idRng c2State prev0 idRng rfl rfl
  obtain ⟨s2, hrun, hph, hsp, hmc, -⟩ := hA (by decide)
  exact ⟨s2, hrun, by rw [hph]; decide, by rw [hsp]; decide, by rw [hmc]; decide⟩

theorem apply_dir_input_score (inp : InputFrame) (s : GameState) :
    (apply_dir_input inp s).score = s.score ∧
    (apply_dir_input inp s).highscore = s.highscore ∧
    (apply_dir_input inp s).state = s.state := by
  unfold apply_dir_input
  split <;> exact ⟨rfl, rfl, rfl⟩

theorem handle_input_highscore (fuel : Nat) (inp : InputFrame) (prev : PrevButtons)
    (s : GameState) (g : RNG) (t : GameState) (p' : PrevButtons) (g' : RNG)
    (h : handle_input fuel inp prev s g = some (t, p', g'))
    (hnc : ¬ (inp.sel = true ∧ prev.sel = false ∧ s.state = STATE_TITLE)) :
    t.highscore = s.highscore ∧ (t.score = s.score ∨ t.score = 0) := by
  unfold handle_input at h
  rcases Option.bind_eq_some.mp h with ⟨q, hq, h2⟩
  simp only [Option.some.injEq, Prod.mk.injEq] at h2
  obtain ⟨ht, -, -⟩ := h2
  have hqfacts : q.1.highscore = s.highscore ∧ (q.1.score = s.score ∨ q.1.score = 0) ∧
      (q.1.state = STATE_TITLE → s.state = STATE_TITLE) := by
    by_cases hs0 : (inp.start && !prev.start) = true
    · rw [if_pos hs0] at hq
      split at hq
      · obtain ⟨-, -, -, -, -, e6, e7, -, -, -, -, e12, -⟩ :=
          game_reset_spec _ _ _ q.1 q.2 (by rw [hq])
        exact ⟨e7, Or.inr e6,
          fun htit => nomatch (show STATE_PLAY = STATE_TITLE from e12.symm.trans htit)⟩
      · simp only [Option.some.injEq] at hq
        subst hq
        exact ⟨rfl, Or.inl rfl,
          fun htit => nomatch (show STATE_PAUSE = STATE_TITLE from htit)⟩
      · simp only [Option.some.injEq] at hq
        subst hq
        exact ⟨rfl, Or.inl rfl,
          fun htit => nomatch (show STATE_PLAY = STATE_TITLE from htit)⟩
      · obtain ⟨-, -, -, -, -, e6, e7, -, -, -, -, e12, -⟩ :=
          game_reset_spec _ _ _ q.1 q.2 (by rw [hq])
        exact ⟨e7, Or.inr e6,
          fun htit => nomatch (show STATE_PLAY = STATE_TITLE from e12.symm.trans htit)⟩
    · rw [if_neg hs0] at hq
      simp only [Option.some.injEq] at hq
      subst hq
      exact ⟨rfl, Or.inl rfl, fun htit => htit⟩
  obtain ⟨hqh, hqs, hqt⟩ := hqfacts
  have hcf : (inp.sel && !prev.sel && (q.1.state == STATE_TITLE)) = false := by
    by_cases hq1 : q.1.state = STATE_TITLE
    · cases hsel : inp.sel with
      | false => simp [hsel]
      | true =>
        cases hpsel : prev.sel with
        | true => simp [hpsel]
        | false => exact absurd ⟨hsel, hpsel, hqt hq1⟩ hnc
    · have hb : (q.1.state == STATE_TITLE) = false := by
        cases hx : q.1.state <;> first | rfl | exact absurd hx hq1
      simp [hb]
  rw [if_neg (by simp [hcf])] at ht
  obtain ⟨a1, a2, -⟩ := apply_dir_input_score inp q.1
  rw [← ht]
  refine ⟨a2.trans hqh, ?_⟩
  rcases hqs with h1 | h1
  · exact Or.inl (a1.trans h1)
  · exact Or.inr (a1.trans h1)

theorem retro_run_frame_score (fuel : Nat) (inp : InputFrame) (prev : PrevButtons)
    (s : GameState) (g : RNG) (t : GameState) (p' : PrevButtons) (g' : RNG)
    (h : retro_run_frame fuel inp prev s g = some (t, p', g')) :
    ∃ s1 prev1 g1, handle_input fuel inp prev s g = some (s1, prev1, g1) ∧
      ((t.score = s1.score ∧ t.highscore = s1.highscore) ∨
       (t.score = s1.score + 10 ∧
        t.highscore = if s1.highscore < s1.score + 10 then s1.score + 10
                      else s1.highscore)) := by
  unfold retro_run_frame at h
  cases hhi : handle_input fuel inp prev s g with
  | none => rw [hhi] at h; exact absurd h (by simp)
  | some q =>
    obtain ⟨s1, prev1, g1⟩ := q
    rw [hhi] at h
    simp only [Option.some_bind] at h
    refine ⟨s1, prev1, g1, rfl, ?_⟩
    by_cases hplay : (s1.state == STATE_PLAY) = true
    · rw [if_pos hplay] at h
      by_cases hph : 0 < s1.phaseTimer <;> by_cases hsp : 0 < s1.speedTimer <;>
        [rw [if_pos hph, if_pos hsp] at h;
         rw [if_pos hph, if_neg hsp] at h;
         rw [if_neg hph, if_pos hsp] at h;
         rw [if_neg hph, if_neg hsp] at h] <;>
      · by_cases hmc : s1.moveCounter - 1 ≤ 0
        · rw [if_pos hmc] at h
          rcases Option.map_eq_some'.mp h with ⟨b, hb, hbe⟩
          rcases Option.map_eq_some'.mp hb with ⟨c, hc, hce⟩
          rcases Option.map_eq_some'.mp hc with ⟨d, hd, hde⟩
          subst hde
          subst hce
          simp only [Prod.mk.injEq] at hbe
          obtain ⟨ht, -, -⟩ := hbe
          obtain ⟨-, -, -, -, -, -, -, u8, -⟩ :=
            update_snake_spec fuel _ g1 d.1 d.2 (by rw [hd])
          have hts : t.score = d.1.score := by rw [← ht]; rfl
          have hths : t.highscore = d.1.highscore := by rw [← ht]; rfl
          rw [hts, hths]
          exact u8
        · rw [if_neg hmc] at h
          rcases Option.map_eq_some'.mp h with ⟨b, hb, hbe⟩
          rcases Option.map_eq_some'.mp hb with ⟨c, hc, hce⟩
          simp only [Option.some.injEq] at hc
          subst hc
          subst hce
          simp only [Prod.mk.injEq] at hbe
          obtain ⟨ht, -, -⟩ := hbe
          exact Or.inl ⟨by rw [← ht]; rfl, by rw [← ht]; rfl⟩
    · rw [if_neg hplay] at h
      rcases Option.map_eq_some'.mp h with ⟨b, hb, hbe⟩
      simp only [Option.some.injEq] at hb
      subst hb
      simp only [Prod.mk.injEq] at hbe
      obtain ⟨ht, -, -⟩ := hbe
      exact Or.inl ⟨by rw [← ht], by rw [← ht]⟩

/-- Counterexample to C9 as stated: retro_unserialize is an operation of the
core other than the title-screen Select clear, yet it lowers the high score —
loading a blob saved with high score 0 into a session whose high score is 50
overwrites the 50 with 0. -/
theorem c9_counterexample :
    (retro_unserialize (serializeBytes baseState) 9660
        {baseState with highscore := 50}).1 = true ∧
    ({baseState with highscore := 50} : GameState).highscore = 50 ∧
    (retro_unserialize (serializeBytes baseState) 9660
        {baseState with highscore := 50}).2.highscore = 0 := by
  have hd := deserialize_serialize baseState {baseState with highscore := 50} baseState_wf
  unfold retro_unserialize
  rw [if_neg (by decide : ¬ (9660 < retro_serialize_size))]
  refine ⟨rfl, rfl, ?_⟩
  rw [hd]
  rfl

/-- C9 (amended): across the frame and reset operations of the core — which
excludes loading a save state, shown above to overwrite the high score, and
excludes frames with a Select edge in the Title state, the explicit clear —
the high score never decreases, and after each such operation it equals the
maximum of its previous value and the score now reached; the score stays
non-negative and bounded by the high score, so along any such run the high
score is the maximum score observed. -/
theorem c9_highscore_monotone (fuel : Nat) (st st' : GameState × PrevButtons × RNG)
    (op : CoreOp) (hop : run_op fuel st op = some st')
    (hnc : ∀ inp, op = CoreOp.frame inp →
      ¬ (inp.sel = true ∧ st.2.1.sel = false ∧ st.1.state = STATE_TITLE))
    (h0 : 0 ≤ st.1.score) (hsc : st.1.score ≤ st.1.highscore) :
    st.1.highscore ≤ st'.1.highscore ∧
    st'.1.highscore = max st.1.highscore st'.1.score ∧
    0 ≤ st'.1.score ∧ st'.1.score ≤ st'.1.highscore := by
  cases op with
  | reset =>
    simp only [run_op] at hop
    rcases Option.map_eq_some'.mp hop with ⟨q, hq, hqe⟩
    obtain ⟨-, -, -, -, -, e6, e7, -⟩ := game_reset_spec fuel st.1 st.2.2 q.1 q.2 (by rw [hq])
    have h1 : st'.1 = q.1 := by rw [← hqe]
    rw [h1, e6, e7]
    exact ⟨le_refl _, (max_eq_left (le_trans h0 hsc)).symm, le_refl _, le_trans h0 hsc⟩
  | frame inp =>
    simp only [run_op] at hop
    obtain ⟨s1, prev1, g1, hhi, hdisj⟩ :=
      retro_run_frame_score fuel inp st.2.1 st.1 st.2.2 st'.1 st'.2.1 st'.2.2 (by rw [hop])
    obtain ⟨hH, hS⟩ :=
      handle_input_highscore fuel inp st.2.1 st.1 st.2.2 s1 prev1 g1 hhi (hnc inp rfl)
    rcases hdisj with ⟨hs, hh⟩ | ⟨hs, hh⟩
    · rw [hs, hh, hH]
      rcases hS with h1 | h1 <;> rw [h1]
      · exact ⟨le_refl _, (max_eq_left hsc).symm, h0, hsc⟩
      · exact ⟨le_refl _, (max_eq_left (le_trans h0 hsc)).symm, le_refl _, le_trans h0 hsc⟩
    · rw [hs, hh, hH]
      rcases hS with h1 | h1 <;> rw [h1] <;>
        refine ⟨by split_ifs <;> omega, by rw [max_def]; split_ifs <;> omega,
          by omega, by split_ifs <;> omega⟩

/-- Witness for C9: one neutral-input frame on the concrete Playing state
keeps the high score and leaves it equal to the maximum of its old value and
the new score. -/
theorem c9_witness :
    0 ≤ c2State.score ∧ c2State.score ≤ c2State.highscore ∧
    run_op 0 (c2State, prev0, idRng) (CoreOp.frame neutralInput) =
      some ((run_op 0 (c2State, prev0, idRng)
              (CoreOp.frame neutralInput)).getD (c2State, prev0, idRng)) ∧
    c2State.highscore ≤
      ((run_op 0 (c2State, prev0, idRng)
          (CoreOp.frame neutralInput)).getD (c2State, prev0, idRng)).1.highscore ∧
    ((run_op 0 (c2State, prev0, idRng)
        (CoreOp.frame neutralInput)).getD (c2State, prev0, idRng)).1.highscore =
      max c2State.highscore
        ((run_op 0 (c2State, prev0, idRng)
            (CoreOp.frame neutralInput)).getD (c2State, prev0, idRng)).1.score := by
  obtain ⟨m1, m2, -, -⟩ := c9_highscore_monotone 0 (c2State, prev0, idRng)
    ((run_op 0 (c2State, prev0, idRng)
        (CoreOp.frame neutralInput)).getD (c2State, prev0, idRng))
    (CoreOp.frame neutralInput) rfl
    (fun inp h hcon => absurd hcon.2.2 (by decide))
    (by decide) (by decide)
  exact ⟨by decide, by decide, rfl, m1, m2⟩

theorem interior_of_not_border (x y : Int) (h0 : 0 ≤ x) (h1 : x < 40)
    (h2 : 0 ≤ y) (h3 : y < 30) (hb : border_cell x y = false) :
    1 ≤ x ∧ x ≤ 38 ∧ 1 ≤ y ∧ y ≤ 28 := by
  simp [border_cell, h0, h1, h2, h3] at hb
  omega

theorem border_cell_false_of_interior (x y : Int)
    (h : 1 ≤ x ∧ x ≤ 38 ∧ 1 ≤ y ∧ y ≤ 28) : border_cell x y = false := by
  simp [border_cell]
  omega

theorem tickCandidate_bounds (s : GameState)
    (h : 1 ≤ s.snakeX.headD 0 ∧ s.snakeX.headD 0 ≤ 38 ∧
         1 ≤ s.snakeY.headD 0 ∧ s.snakeY.headD 0 ≤ 28) :
    0 ≤ (tickCandidate s).1 ∧ (tickCandidate s).1 < 40 ∧
    0 ≤ (tickCandidate s).2 ∧ (tickCandidate s).2 < 30 := by
  obtain ⟨a, b, c, d⟩ := h
  simp only [List.headD_eq_head?_getD] at a b c d
  unfold tickCandidate
  cases hp : s.pendingDir <;> simp [dirStep] <;> omega

theorem wrapX_id (x : Int) (h0 : 0 ≤ x) (h1 : x < 40) : wrapX x = x := by
  unfold wrapX
  split_ifs <;> omega

theorem wrapY_id (y : Int) (h0 : 0 ≤ y) (h1 : y < 30) : wrapY y = y := by
  unfold wrapY
  split_ifs <;> omega

theorem wrapped_eq_tick (s : GameState)
    (hb : 0 ≤ (tickCandidate s).1 ∧ (tickCandidate s).1 < 40 ∧
          0 ≤ (tickCandidate s).2 ∧ (tickCandidate s).2 < 30) :
    wrapped_candidate s = tickCandidate s := by
  unfold wrapped_candidate
  split_ifs with h
  · rw [wrapX_id _ hb.1 hb.2.1, wrapY_id _ hb.2.2.1 hb.2.2.2]
  · rfl

theorem apply_dir_input_inv (inp : InputFrame) (s : GameState) :
    (apply_dir_input inp s).obstacle = s.obstacle ∧
    (apply_dir_input inp s).snakeX = s.snakeX ∧
    (apply_dir_input inp s).snakeY = s.snakeY := by
  unfold apply_dir_input
  split <;> exact ⟨rfl, rfl, rfl⟩

theorem handle_input_inv (fuel : Nat) (inp : InputFrame) (prev : PrevButtons)
    (s : GameState) (g : RNG) (t : GameState) (p' : PrevButtons) (g' : RNG)
    (h : handle_input fuel inp prev s g = some (t, p', g')) :
    (t.obstacle = s.obstacle ∧ t.snakeX = s.snakeX ∧ t.snakeY = s.snakeY) ∨
    ((∀ x y, border_cell x y = true → t.obstacle x y = true) ∧
     t.snakeX.headD 0 = 20 ∧ t.snakeY.headD 0 = 15) := by
  unfold handle_input at h
  rcases Option.bind_eq_some.mp h with ⟨q, hq, h2⟩
  simp only [Option.some.injEq, Prod.mk.injEq] at h2
  obtain ⟨ht, -, -⟩ := h2
  have hpre : t.obstacle = q.1.obstacle ∧ t.snakeX = q.1.snakeX ∧ t.snakeY = q.1.snakeY := by
    rw [← ht]
    by_cases hc : (inp.sel && !prev.sel && (q.1.state == STATE_TITLE)) = true
    · rw [if_pos hc]
      obtain ⟨b1, b2, b3⟩ := apply_dir_input_inv inp {q.1 with highscore := 0}
      exact ⟨b1, b2, b3⟩
    · rw [if_neg hc]
      exact apply_dir_input_inv inp q.1
  by_cases hs0 : (inp.start && !prev.start) = true
  · rw [if_pos hs0] at hq
    split at hq
    · obtain ⟨e1, e2, -, -, -, -, -, -, -, -, -, -, e13⟩ :=
        game_reset_spec _ _ _ q.1 q.2 (by rw [hq])
      refine Or.inr ⟨fun x y hxy => by rw [hpre.1]; exact e13 x y hxy, ?_, ?_⟩
      · rw [hpre.2.1, e1]; rfl
      · rw [hpre.2.2, e2]; rfl
    · simp only [Option.some.injEq] at hq
      subst hq
      exact Or.inl hpre
    · simp only [Option.some.injEq] at hq
      subst hq
      exact Or.inl hpre
    · obtain ⟨e1, e2, -, -, -, -, -, -, -, -, -, -, e13⟩ :=
        game_reset_spec _ _ _ q.1 q.2 (by rw [hq])
      refine Or.inr ⟨fun x y hxy => by rw [hpre.1]; exact e13 x y hxy, ?_, ?_⟩
      · rw [hpre.2.1, e1]; rfl
      · rw [hpre.2.2, e2]; rfl
  · rw [if_neg hs0] at hq
    simp only [Option.some.injEq] at hq
    subst hq
    exact Or.inl hpre

theorem retro_run_frame_inv (fuel : Nat) (inp : InputFrame) (prev : PrevButtons)
    (s : GameState) (g : RNG) (t : GameState) (p' : PrevButtons) (g' : RNG)
    (h : retro_run_frame fuel inp prev s g = some (t, p', g')) :
    ∃ s1 prev1 g1, handle_input fuel inp prev s g = some (s1, prev1, g1) ∧
      t.obstacle = s1.obstacle ∧
      ((t.snakeX = s1.snakeX ∧ t.snakeY = s1.snakeY) ∨
       (s1.obstacle (t.snakeX.headD 0) (t.snakeY.headD 0) = false ∧
        0 ≤ t.snakeX.headD 0 ∧ t.snakeX.headD 0 < 40 ∧
        0 ≤ t.snakeY.headD 0 ∧ t.snakeY.headD 0 < 30)) := by
  unfold retro_run_frame at h
  cases hhi : handle_input fuel inp prev s g with
  | none => rw [hhi] at h; exact absurd h (by simp)
  | some q =>
    obtain ⟨s1, prev1, g1⟩ := q
    rw [hhi] at h
    simp only [Option.some_bind] at h
    refine ⟨s1, prev1, g1, rfl, ?_, ?_⟩ <;>
    by_cases hplay : (s1.state == STATE_PLAY) = true
    case _ =>
      rw [if_pos hplay] at h
      by_cases hph : 0 < s1.phaseTimer <;> by_cases hsp : 0 < s1.speedTimer <;>
        [rw [if_pos hph, if_pos hsp] at h;
         rw [if_pos hph, if_neg hsp] at h;
         rw [if_neg hph, if_pos hsp] at h;
         rw [if_neg hph, if_neg hsp] at h] <;>
      · by_cases hmc : s1.moveCounter - 1 ≤ 0
        · rw [if_pos hmc] at h
          rcases Option.map_eq_some'.mp h with ⟨b, hb, hbe⟩
          rcases Option.map_eq_some'.mp hb with ⟨c, hc, hce⟩
          rcases Option.map_eq_some'.mp hc with ⟨d, hd, hde⟩
          subst hde
          subst hce
          simp only [Prod.mk.injEq] at hbe
          obtain ⟨ht, -, -⟩ := hbe
          obtain ⟨-, -, u3, -⟩ := update_snake_spec fuel _ g1 d.1 d.2 (by rw [hd])
          have hto : t.obstacle = d.1.obstacle := by rw [← ht]; rfl
          exact hto.trans u3
        · rw [if_neg hmc] at h
          rcases Option.map_eq_some'.mp h with ⟨b, hb, hbe⟩
          rcases Option.map_eq_some'.mp hb with ⟨c, hc, hce⟩
          simp only [Option.some.injEq] at hc
          subst hc
          subst hce
          simp only [Prod.mk.injEq] at hbe
          obtain ⟨ht, -, -⟩ := hbe
          rw [← ht]; rfl
    case _ =>
      rw [if_neg hplay] at h
      rcases Option.map_eq_some'.mp h with ⟨b, hb, hbe⟩
      simp only [Option.some.injEq] at hb
      subst hb
      simp only [Prod.mk.injEq] at hbe
      obtain ⟨ht, -, -⟩ := hbe
      rw [← ht]
    case _ =>
      rw [if_pos hplay] at h
      by_cases hph : 0 < s1.phaseTimer <;> by_cases hsp : 0 < s1.speedTimer <;>
        [rw [if_pos hph, if_pos hsp] at h;
         rw [if_pos hph, if_neg hsp] at h;
         rw [if_neg hph, if_pos hsp] at h;
         rw [if_neg hph, if_neg hsp] at h] <;>
      · by_cases hmc : s1.moveCounter - 1 ≤ 0
        · rw [if_pos hmc] at h
          rcases Option.map_eq_some'.mp h with ⟨b, hb, hbe⟩
          rcases Option.map_eq_some'.mp hb with ⟨c, hc, hce⟩
          rcases Option.map_eq_some'.mp hc with ⟨d, hd, hde⟩
          subst hde
          subst hce
          simp only [Prod.mk.injEq] at hbe
          obtain ⟨ht, -, -⟩ := hbe
          obtain ⟨-, -, -, -, -, -, -, -, u9⟩ :=
            update_snake_spec fuel _ g1 d.1 d.2 (by rw [hd])
          have htx : t.snakeX = d.1.snakeX := by rw [← ht]; rfl
          have hty : t.snakeY = d.1.snakeY := by rw [← ht]; rfl
          rw [htx, hty]
          exact u9
        · rw [if_neg hmc] at h
          rcases Option.map_eq_some'.mp h with ⟨b, hb, hbe⟩
          rcases Option.map_eq_some'.mp hb with ⟨c, hc, hce⟩
          simp only [Option.some.injEq] at hc
          subst hc
          subst hce
          simp only [Prod.mk.injEq] at hbe
          obtain ⟨ht, -, -⟩ := hbe
          exact Or.inl ⟨by rw [← ht]; rfl, by rw [← ht]; rfl⟩
    case _ =>
      rw [if_neg hplay] at h
      rcases Option.map_eq_some'.mp h with ⟨b, hb, hbe⟩
      simp only [Option.some.injEq] at hb
      subst hb
      simp only [Prod.mk.injEq] at hbe
      obtain ⟨ht, -, -⟩ := hbe
      exact Or.inl ⟨by rw [← ht], by rw [← ht]⟩

theorem run_op_inv10 (fuel : Nat) (st st' : GameState × PrevButtons × RNG) (op : CoreOp)
    (hop : run_op fuel st op = some st')
    (hb : ∀ x y, border_cell x y = true → st.1.obstacle x y = true)
    (hh : 1 ≤ st.1.snakeX.headD 0 ∧ st.1.snakeX.headD 0 ≤ 38 ∧
          1 ≤ st.1.snakeY.headD 0 ∧ st.1.snakeY.headD 0 ≤ 28) :
    (∀ x y, border_cell x y = true → st'.1.obstacle x y = true) ∧
    (1 ≤ st'.1.snakeX.headD 0 ∧ st'.1.snakeX.headD 0 ≤ 38 ∧
     1 ≤ st'.1.snakeY.headD 0 ∧ st'.1.snakeY.headD 0 ≤ 28) := by
  cases op with
  | reset =>
    simp only [run_op] at hop
    rcases Option.map_eq_some'.mp hop with ⟨q, hq, hqe⟩
    obtain ⟨e1, e2, -, -, -, -, -, -, -, -, -, -, e13⟩ :=
      game_reset_spec fuel st.1 st.2.2 q.1 q.2 (by rw [hq])
    have h1 : st'.1 = q.1 := by rw [← hqe]
    rw [h1]
    refine ⟨e13, ?_⟩
    rw [e1, e2]
    refine ⟨?_, ?_, ?_, ?_⟩ <;> simp
  | frame inp =>
    simp only [run_op] at hop
    obtain ⟨s1, prev1, g1, hhi, hob, hdisj⟩ :=
      retro_run_frame_inv fuel inp st.2.1 st.1 st.2.2 st'.1 st'.2.1 st'.2.2 (by rw [hop])
    have hs1 : (∀ x y, border_cell x y = true → s1.obstacle x y = true) ∧
        (1 ≤ s1.snakeX.headD 0 ∧ s1.snakeX.headD 0 ≤ 38 ∧
         1 ≤ s1.snakeY.headD 0 ∧ s1.snakeY.headD 0 ≤ 28) := by
      rcases handle_input_inv fuel inp st.2.1 st.1 st.2.2 s1 prev1 g1 hhi with
        ⟨i1, i2, i3⟩ | ⟨i1, i2, i3⟩
      · refine ⟨fun x y hxy => by rw [i1]; exact hb x y hxy, ?_⟩
        rw [i2, i3]
        exact hh
      · refine ⟨i1, ?_⟩
        rw [i2, i3]
        refine ⟨?_, ?_, ?_, ?_⟩ <;> decide
    obtain ⟨hbs1, hhs1⟩ := hs1
    refine ⟨fun x y hxy => by rw [hob]; exact hbs1 x y hxy, ?_⟩
    rcases hdisj with ⟨j1, j2⟩ | ⟨j1, j2, j3, j4, j5⟩
    · rw [j1, j2]
      exact hhs1
    · have hbf : border_cell (st'.1.snakeX.headD 0) (st'.1.snakeY.headD 0) = false := by
        cases hbc : border_cell (st'.1.snakeX.headD 0) (st'.1.snakeY.headD 0) with
        | false => rfl
        | true =>
          rw [hbs1 _ _ hbc] at j1
          exact nomatch j1
      exact interior_of_not_border _ _ j2 j3 j4 j5 hbf

theorem run_ops_inv10 (fuel : Nat) (ops : List CoreOp) :
    ∀ st st' : GameState × PrevButtons × RNG, run_ops fuel ops st = some st' →
    (∀ x y, border_cell x y = true → st.1.obstacle x y = true) →
    (1 ≤ st.1.snakeX.headD 0 ∧ st.1.snakeX.headD 0 ≤ 38 ∧
     1 ≤ st.1.snakeY.headD 0 ∧ st.1.snakeY.headD 0 ≤ 28) →
    (∀ x y, border_cell x y = true → st'.1.obstacle x y = true) ∧
    (1 ≤ st'.1.snakeX.headD 0 ∧ st'.1.snakeX.headD 0 ≤ 38 ∧
     1 ≤ st'.1.snakeY.headD 0 ∧ st'.1.snakeY.headD 0 ≤ 28) := by
  induction ops with
  | nil =>
    intro st st' h hb hh
    simp only [run_ops, Option.some.injEq] at h
    rw [← h]
    exact ⟨hb, hh⟩
  | cons op ops ih =>
    intro st st' h hb hh
    simp only [run_ops] at h
    rcases Option.bind_eq_some.mp h with ⟨st1, h1, h2⟩
    obtain ⟨hb1, hh1⟩ := run_op_inv10 fuel st st1 op h1 hb hh
    exact ih st1 st' h2 hb1 hh1

/-- C10: in every state reachable from game_reset by any sequence of frames
(input handling plus ticks) and resets, the snake's head is strictly inside
the border ring — it never occupies a cell with x = 0, x = 39, y = 0 or
y = 29, because spawn_obstacles fills the whole ring with obstacles, the
commit path only ever installs an obstacle-free in-grid cell as the head, and
obstacle collision ends the game regardless of phasing.  Consequently the
next tick's candidate cell is always inside [0,40)×[0,30), so the wall-death
branch never fires and the phasing wraparound is the identity: phasing never
actually produces a wrapped head coordinate in reachable play. -/
theorem c10_head_never_on_border (fuel : Nat) (s : GameState) (g : RNG)
    (t0 : GameState) (g0 : RNG) (prev : PrevButtons) (ops : List CoreOp)
    (hreset : game_reset fuel s g = some (t0, g0))
    (st' : GameState × PrevButtons × RNG)
    (hrun : run_ops fuel ops (t0, prev, g0) = some st') :
    border_cell (st'.1.snakeX.headD 0) (st'.1.snakeY.headD 0) = false ∧
    (0 ≤ (tickCandidate st'.1).1 ∧ (tickCandidate st'.1).1 < 40 ∧
     0 ≤ (tickCandidate st'.1).2 ∧ (tickCandidate st'.1).2 < 30) ∧
    wrapped_candidate st'.1 = tickCandidate st'.1 := by
  obtain ⟨e1, e2, -, -, -, -, -, -, -, -, -, -, e13⟩ := game_reset_spec fuel s g t0 g0 hreset
  obtain ⟨hbF, hhF⟩ := run_ops_inv10 fuel ops (t0, prev, g0) st' hrun e13
    (by rw [e1, e2]; refine ⟨?_, ?_, ?_, ?_⟩ <;> simp)
  have hcb := tickCandidate_bounds st'.1 hhF
  exact ⟨border_cell_false_of_interior _ _ hhF, hcb, wrapped_eq_tick st'.1 hcb⟩

theorem some_getD_of_isSome {α : Type} (o : Option α) (d : α) (h : o.isSome = true) :
    o = some (o.getD d) := by
  cases o with
  | none => cases h
  | some a => rfl

set_option maxHeartbeats 16000000 in
/-- Witness for C10: a concrete game_reset (identity draw stream, fuel 40)
succeeds, and in the freshly reset state the head is off the border ring and
the phasing wraparound is the identity on the next candidate cell. -/
theorem c10_witness :
    game_reset 40 baseState idRng =
      some ((game_reset 40 baseState idRng).getD (baseState, idRng)) ∧
    border_cell
      (((game_reset 40 baseState idRng).getD (baseState, idRng)).1.snakeX.headD 0)
      (((game_reset 40 baseState idRng).getD (baseState, idRng)).1.snakeY.headD 0) =
        false ∧
    wrapped_candidate ((game_reset 40 baseState idRng).getD (baseState, idRng)).1 =
      tickCandidate ((game_reset 40 baseState idRng).getD (baseState, idRng)).1 := by
  have hres : game_reset 40 baseState idRng =
      some ((game_reset 40 baseState idRng).getD (baseState, idRng)) :=
    some_getD_of_isSome _ _ rfl
  obtain ⟨w1, -, w3⟩ := c10_head_never_on_border 40 baseState idRng
    ((game_reset 40 baseState idRng).getD (baseState, idRng)).1
    ((game_reset 40 baseState idRng).getD (baseState, idRng)).2
    prev0 [] (hres.trans (congrArg some Prod.mk.eta.symm))
    (((game_reset 40 baseState idRng).getD (baseState, idRng)).1, prev0,
      ((game_reset 40 baseState idRng).getD (baseState, idRng)).2) rfl
  exact ⟨hres, w1, w3⟩
